import Mathlib

/-!
Verification development for the Matching & Registration pipeline of the
`Carniceria_Ma_Cristina_Agente3` repository (CFDI invoice matching and direct
registration into the SAV7 ERP).

The Python sources are shallowly embedded as executable Lean definitions:

* money amounts and fuzzy-match scores (Python `Decimal` / `float`) are modelled
  as exact rationals `ℚ`; arithmetic on them is performed by the kernel-computable
  operations `qadd`, `qsub`, `qmul`, `qdiv`, `qabs` below, each proved equal to the
  corresponding Mathlib operation;
* strings are Lean `String`s, manipulated through their character lists;
  Python `str.upper` / `unicodedata` are modelled by partial character tables
  (`pyUpper`, `nfkdChar`, `combiningChar`) that are faithful on the characters
  used in this development and the identity elsewhere;
* the SQL store (`SAVRecC`, `SAVRecD`, `SAVNCredP`) is modelled as lists of row
  records, and each embedded query is translated from the SQL text it executes;
* dates are modelled as day numbers (`Nat`), so that day differences and date
  equality are exact.

Parts of the repository are imported by the provided sources but missing from
them (`src/sat/models.py`, `config/database.py`, `src/erp/utils.py`), and the
provided `config/settings.py` / `src/erp/models.py` are stale with respect to
their users (`proveedor_repo.py` constructs `ProveedorERP` with address fields
the provided dataclass lacks; both registrars read
`settings.numrec_rango_minimo` / `settings.ncredito_rango_minimo`;
`registro_directo.py` reads `match.cantidad_neta`, described in its own comment
as "del Google Sheets o 0").  Definitions for those missing pieces are modelled
from the specification and are marked `Modelled from the spec:` in their doc
comments.
-/

/-! ### Kernel-computable rational arithmetic

The Mathlib/Batteries `Rat` operations are irreducible for `decide`, so the
embedding uses the following `mkRat`-based operations, proved equal to the
standard ones right below.  They model exact rational arithmetic; Python float
rounding is not modelled (no claim in scope depends on it). -/

/-- Kernel-computable addition on `ℚ`. -/
def qadd (a b : ℚ) : ℚ := mkRat (a.num * b.den + b.num * a.den) (a.den * b.den)

/-- Kernel-computable subtraction on `ℚ`. -/
def qsub (a b : ℚ) : ℚ := mkRat (a.num * b.den - b.num * a.den) (a.den * b.den)

/-- Kernel-computable multiplication on `ℚ`. -/
def qmul (a b : ℚ) : ℚ := mkRat (a.num * b.num) (a.den * b.den)

/-- Kernel-computable division on `ℚ` (0 when the divisor is 0, as a guard;
every embedded use is behind the same zero test the Python source performs). -/
def qdiv (a b : ℚ) : ℚ := mkRat (a.num * b.den * b.num.sign) (a.den * b.num.natAbs)

/-- Kernel-computable absolute value on `ℚ`. -/
def qabs (a : ℚ) : ℚ := mkRat a.num.natAbs a.den

/-- Kernel-computable sum of a list of rationals (Python `sum`: left fold from 0). -/
def qsum (l : List ℚ) : ℚ := l.foldl qadd 0

/-! ### Text layer

Models the string primitives used by `src/matching/cache_productos.py`
(`normalizar_texto`) and by `rapidfuzz.fuzz`.  Python whitespace handling
(`str.split()`, `str.strip()`) splits on the characters below. -/

/-- The whitespace characters recognised by Python `str.split()` / `str.strip()`
(ASCII subset; exotic Unicode whitespace is not used in this development). -/
def isSpacePy (c : Char) : Bool :=
  c = ' ' || c = '\t' || c = '\n' || c = '\r' || c = '\x0b' || c = '\x0c'

/-- The lowercase-to-uppercase table behind `pyUpper` (ASCII letters). -/
def tablaMayusculas : List (Char × Char) :=
  [('a', 'A'), ('b', 'B'), ('c', 'C'), ('d', 'D'), ('e', 'E'), ('f', 'F'),
   ('g', 'G'), ('h', 'H'), ('i', 'I'), ('j', 'J'), ('k', 'K'), ('l', 'L'),
   ('m', 'M'), ('n', 'N'), ('o', 'O'), ('p', 'P'), ('q', 'Q'), ('r', 'R'),
   ('s', 'S'), ('t', 'T'), ('u', 'U'), ('v', 'V'), ('w', 'W'), ('x', 'X'),
   ('y', 'Y'), ('z', 'Z')]

/-- Partial model of Python `str.upper()` on a single character: uppercases
ASCII letters and is the identity elsewhere.  In particular it is the identity
on characters that have no Unicode uppercase mapping, such as
U+00BA `º` (MASCULINE ORDINAL INDICATOR, category Lo). -/
def pyUpper (c : Char) : Char := (tablaMayusculas.lookup c).getD c

/-- Partial model of Unicode NFKD decomposition (`unicodedata.normalize('NFKD', ·)`)
on a single character, faithful on the characters used in this development:
U+00BA `º` has the compatibility decomposition `<super> o`; `Á`/`É` decompose
into the base letter followed by U+0301 COMBINING ACUTE ACCENT; `Ñ` into `N`
followed by U+0303 COMBINING TILDE.  Identity elsewhere (ASCII characters have
no decomposition). -/
def nfkdChar (c : Char) : List Char :=
  if c = 'º' then ['o']
  else if c = 'Á' then ['A', '́']
  else if c = 'É' then ['E', '́']
  else if c = 'Ñ' then ['N', '̃']
  else [c]

/-- Partial model of `unicodedata.combining(c) != 0`: true exactly on the
combining marks produced by `nfkdChar`. -/
def combiningChar (c : Char) : Bool :=
  c = '́' || c = '̃'

/-- Python `str.strip()` on a character list. -/
def pyStrip (l : List Char) : List Char :=
  ((l.dropWhile isSpacePy).reverse.dropWhile isSpacePy).reverse

/-- Worker for `pySplit`: `acc` holds the characters of the current word in
reverse order. -/
def pySplitAux : List Char → List Char → List (List Char)
  | [], acc => if acc = [] then [] else [acc.reverse]
  | c :: cs, acc =>
    if isSpacePy c then
      if acc = [] then pySplitAux cs [] else acc.reverse :: pySplitAux cs []
    else pySplitAux cs (c :: acc)

/-- Python `str.split()` (no separator): splits on runs of whitespace,
discarding empty fragments. -/
def pySplit (l : List Char) : List (List Char) := pySplitAux l []

/-- Python `' '.join(ws)`: interleave single spaces. -/
def joinSp : List (List Char) → List Char
  | [] => []
  | [w] => w
  | w :: ws => w ++ ' ' :: joinSp ws

/-- `cache_productos.normalizar_texto` on the character list: uppercase, strip,
replace tabs by spaces, NFKD-decompose, drop combining marks, collapse
whitespace runs (`' '.join(texto.split())`). -/
def normalizarLista (l : List Char) : List Char :=
  if l = [] then []
  else
    let t := (pyStrip (l.map pyUpper)).map (fun c => if c = '\t' then ' ' else c)
    let t := (t.flatMap nfkdChar).filter (fun c => !combiningChar c)
    joinSp (pySplit t)

/-- `cache_productos.normalizar_texto`.  The Python guard `if not texto` maps
both `None` and `''` to `''`; `None` is modelled by `normalizar_texto_opt`. -/
def normalizar_texto (s : String) : String := ⟨normalizarLista s.data⟩

/-- `normalizar_texto` lifted to `Option` to model a Python `None` argument. -/
def normalizar_texto_opt : Option String → String
  | none => ""
  | some s => normalizar_texto s

/-! ### Fuzzy scores (`rapidfuzz.fuzz`)

`fuzz.ratio` is the normalized Indel similarity
`100 * 2 * lcs(a, b) / (|a| + |b|)`; `token_sort_ratio` applies it to the
whitespace-tokenized, lexicographically sorted, space-rejoined strings;
`token_set_ratio` is the fuzzywuzzy/rapidfuzz token-set algorithm: the maximum
of the pairwise Indel similarities of the sorted unique token intersection
`t0`, `t0 ⊕ (tokens₁ \ tokens₂)` and `t0 ⊕ (tokens₂ \ tokens₁)` (100 when one
token set contains the other and the intersection is nonempty, 0 when either
token set is empty). -/

/-- Inner worker for `lcs` (structural recursion so the kernel can evaluate). -/
def lcsAux (lcsRest : List Char → Nat) (a : Char) : List Char → Nat
  | [] => 0
  | b :: bs => if a = b then 1 + lcsRest bs else max (lcsAux lcsRest a bs) (lcsRest (b :: bs))

/-- Length of a longest common subsequence of two character lists. -/
def lcs : List Char → List Char → Nat
  | [], _ => 0
  | a :: as, l2 => lcsAux (lcs as) a l2

/-- Kernel-computable cast `ℕ → ℚ`. -/
def qofNat (n : ℕ) : ℚ := mkRat n 1

/-- Kernel-computable `max` on `ℚ`. -/
def qmax (a b : ℚ) : ℚ := if a ≤ b then b else a

/-- Normalized Indel similarity of two character lists scaled to 0–100
(`rapidfuzz` `fuzz.ratio`; two empty strings score 100). -/
def indel_sim (a b : List Char) : ℚ :=
  if a.length + b.length = 0 then 100
  else qdiv (qofNat (100 * (2 * lcs a b))) (qofNat (a.length + b.length))

/-- Lexicographic comparison of character lists by code point
(Python `<=` on `str`). -/
def lexLe : List Char → List Char → Bool
  | [], _ => true
  | _ :: _, [] => false
  | a :: as, b :: bs =>
    if a.val < b.val then true
    else if b.val < a.val then false
    else lexLe as bs

/-- Insert into an ascending-sorted list of tokens (stable). -/
def insertTokenAsc (w : List Char) : List (List Char) → List (List Char)
  | [] => [w]
  | y :: ys =>
    if lexLe w y && !lexLe y w then w :: y :: ys else y :: insertTokenAsc w ys

/-- Python `sorted` on a token list (ascending, stable). -/
def sortTokensAsc : List (List Char) → List (List Char)
  | [] => []
  | w :: ws => insertTokenAsc w (sortTokensAsc ws)

/-- Drop adjacent duplicates of a sorted token list (so that
`sortedUniqueTokens` models Python `sorted(set(...))`). -/
def dedupAdj : List (List Char) → List (List Char)
  | [] => []
  | [w] => [w]
  | w :: w' :: ws => if w = w' then dedupAdj (w' :: ws) else w :: dedupAdj (w' :: ws)

/-- Python `sorted(set(s.split()))`. -/
def sortedUniqueTokens (l : List Char) : List (List Char) :=
  dedupAdj (sortTokensAsc (pySplit l))

/-- `rapidfuzz` `fuzz.token_sort_ratio`: Indel similarity of the sorted,
space-rejoined token lists. -/
def token_sort_sim (a b : List Char) : ℚ :=
  indel_sim (joinSp (sortTokensAsc (pySplit a))) (joinSp (sortTokensAsc (pySplit b)))

/-- `rapidfuzz` `fuzz.token_set_ratio` (fuzzywuzzy token-set algorithm, which
the rapidfuzz implementation computes in optimized form). -/
def token_set_sim (a b : List Char) : ℚ :=
  let ta := sortedUniqueTokens a
  let tb := sortedUniqueTokens b
  if ta = [] || tb = [] then 0
  else
    let inter := ta.filter (fun w => tb.contains w)
    let dab := ta.filter (fun w => !tb.contains w)
    let dba := tb.filter (fun w => !ta.contains w)
    if inter ≠ [] ∧ (dab = [] ∨ dba = []) then 100
    else
      let t0 := joinSp inter
      let t1 := if inter = [] then joinSp dab else t0 ++ ' ' :: joinSp dab
      let t2 := if inter = [] then joinSp dba else t0 ++ ' ' :: joinSp dba
      qmax (indel_sim t0 t1) (qmax (indel_sim t0 t2) (indel_sim t1 t2))

/-! ### Data model (`src/erp/models.py`, plus spec-modelled CFDI records)

`Repr`/`DecidableEq` are derived so concrete runs can be checked by `decide`.
Money and quantities are exact rationals; dates are day numbers. -/

/-- `models.ProductoERP` (catalog product).  `frecuencia` is the transient
per-supplier purchase count used for disambiguation (default 0). -/
structure ProductoERP where
  codigo : String
  nombre : String
  familia1 : String := ""
  familia2 : String := ""
  unidad : String := ""
  codigo_sat : String := ""
  porc_iva : ℚ := 0
  servicio : Bool := false
  frecuencia : ℕ := 0
  deriving DecidableEq, Repr

/-- `models.ProveedorERP` (supplier).  The address fields `direccion`,
`colonia`, `cp`, `pais` are constructed by `proveedor_repo.buscar_por_rfc` and
read by `registro_nc._construir_facturar_a` but are absent from the stale
dataclass in the provided `models.py`; they are `Modelled from the spec:`
"counterparty directory source (rows: code, legal name, address fields,
country, payment terms)". -/
structure ProveedorERP where
  clave : String
  empresa : String
  rfc : String
  ciudad : String := "NO ASIGNADA"
  estado : String := "NO ASIGNADO"
  tipo : String := "NACIONAL"
  plazo : ℕ := 0
  direccion : String := ""
  colonia : String := ""
  cp : String := ""
  pais : String := "MÉXICO"
  deriving DecidableEq, Repr

/-- Modelled from the spec: `sat.models.Concepto` (a CFDI line item), whose
module is not among the provided sources.  Fields are those the embedded code
reads: §3 LineItem = description, quantity, unit price, amount, tax rate,
tax classification code, plus the unit and the carried tax amount used by the
registration engine. -/
structure Concepto where
  descripcion : String
  cantidad : ℚ := 1
  valor_unitario : ℚ := 0
  importe : ℚ := 0
  clave_prod_serv : String := ""
  unidad : Option String := none
  impuesto_iva_importe : Option ℚ := none
  impuesto_iva_tasa : Option ℚ := none
  deriving DecidableEq, Repr

/-- Modelled from the spec: `sat.models.Factura` (a parsed CFDI), whose module
is not among the provided sources.  Fields are the ones §6 lists for the
parsed-invoice record and that the embedded code reads.  `fecha_emision` is a
day number. -/
structure Factura where
  uuid : String
  rfc_emisor : String
  folio : Option String := none
  fecha_emision : ℕ := 0
  subtotal : ℚ := 0
  iva_trasladado : ℚ := 0
  total : ℚ := 0
  conceptos : List Concepto := []
  deriving DecidableEq, Repr

/-- `models.ResultadoMatchProducto`.  The `cantidad_neta` field is read by
`registro_directo._insertar_detalles` ("CantidadNeta (del Google Sheets o 0)")
and written by `cantidad_neta_resolver`, but is absent from the stale dataclass
in the provided `models.py`; it is `Modelled from the spec:` "net_quantity
(optional auxiliary quantity from a secondary source)", with the §9 default
"treat missing enrichment as zero/default". -/
structure ResultadoMatchProducto where
  concepto_xml : Concepto
  producto_erp : Option ProductoERP := none
  confianza : ℚ := 0
  nivel_confianza : String := "NO_MATCH"
  metodo_match : String := ""
  candidatos_descartados : ℕ := 0
  mensaje : String := ""
  cantidad_neta : ℚ := 0
  deriving DecidableEq, Repr

/-- `ResultadoMatchProducto.matcheado` (property): a match was found. -/
def ResultadoMatchProducto.matcheado (r : ResultadoMatchProducto) : Bool :=
  r.producto_erp.isSome

/-- `models.ConceptoRegistrado`. -/
structure ConceptoRegistrado where
  concepto_xml : Concepto
  producto_erp : Option ProductoERP := none
  registrado : Bool := false
  confianza_match : ℚ := 0
  metodo_match : String := ""
  motivo_no_registro : Option String := none
  deriving DecidableEq, Repr

/-- `models.RemisionPendiente` (pending Serie R delivery).  `fecha` is an
optional day number; the transient difference fields default to 0 as in the
dataclass. -/
structure RemisionPendiente where
  serie : String := "R"
  num_rec : ℕ
  fecha : Option ℕ := none
  total : ℚ := 0
  estatus : String := ""
  factura : String := ""
  proveedor : String := ""
  diferencia_monto_pct : ℚ := 0
  diferencia_dias : ℕ := 0
  deriving DecidableEq, Repr

/-- `models.ResultadoValidacion`. -/
structure ResultadoValidacion where
  clasificacion : String
  total_remisiones_pendientes : ℕ := 0
  remision_similar : Option RemisionPendiente := none
  remisiones_pendientes : List RemisionPendiente := []
  mensaje : String := ""
  deriving DecidableEq, Repr

/-- `models.ResultadoRegistro` (credit-note-specific fields omitted: the
embedded flows in scope are standard-invoice registration and the stand-alone
credit-note duplicate checks). -/
structure ResultadoRegistro where
  exito : Bool
  factura_uuid : String
  numero_factura_erp : Option String := none
  conceptos_registrados : List ConceptoRegistrado := []
  conceptos_no_matcheados : List ConceptoRegistrado := []
  total_conceptos : ℕ := 0
  conceptos_matcheados_count : ℕ := 0
  registro_parcial : Bool := false
  mensaje : String := ""
  error : Option String := none
  deriving DecidableEq, Repr

/-- `config.settings.Settings` (the fields the embedded code reads, with the
defaults of the provided `settings.py`).  The two floor fields
`numrec_rango_minimo` and `ncredito_rango_minimo` are read by
`registro_directo.py` / `registro_nc.py` but are not defined by the provided
(stale) `settings.py`; they are `Modelled from the spec:` "A configured minimum
floor is applied to the computed number" (the registrar docstring names
`settings.numrec_rango_minimo` and a reserved range ≥ 900000). -/
structure Settings where
  umbral_match_producto : ℕ := 90
  umbral_match_exacto : ℕ := 95
  min_conceptos_match_porcentaje : ℕ := 50
  registrar_parciales : Bool := true
  estatus_registro : String := "No Pagada"
  usuario_sistema : String := "AGENTE3_SAT"
  habilitar_token_set_historial : Bool := true
  min_longitud_token_set : ℕ := 5
  validar_remisiones_pendientes : Bool := true
  tolerancia_monto_validacion : ℚ := 2
  dias_rango_validacion : ℕ := 15
  producto_descuento : String := "INSADM094"
  numrec_rango_minimo : ℕ := 900000
  ncredito_rango_minimo : ℕ := 900000
  deriving DecidableEq, Repr

/-! ### Catalog cache (`src/matching/cache_productos.py`) -/

/-- First-match lookup in an association list (models `dict.get`). -/
def alistLookup {α : Type} (l : List (String × α)) (k : String) : Option α :=
  (l.find? (fun p => p.1 = k)).map (·.2)

/-- Association-list update (models `d[k] = v`: a later assignment wins). -/
def alistSet {α : Type} (l : List (String × α)) (k : String) (v : α) :
    List (String × α) :=
  (k, v) :: l.filter (fun p => p.1 ≠ k)

/-- `CacheProductos`: the four indices built by `cargar`. -/
structure CacheProductos where
  por_nombre : List (String × ProductoERP) := []
  por_codigo : List (String × ProductoERP) := []
  por_codigo_sat : List (String × List ProductoERP) := []
  todos : List ProductoERP := []
  nombres_normalizados : List (String × String) := []
  deriving DecidableEq, Repr

/-- `CacheProductos.cargar`: index the product list (first product wins the
normalized-name slot; the generic SAT code `01010101` is not indexed). -/
def cargar (productos : List ProductoERP) : CacheProductos :=
  productos.foldl (fun cache producto =>
    let nombre_norm := normalizar_texto producto.nombre
    let cache :=
      if nombre_norm ≠ "" ∧ alistLookup cache.por_nombre nombre_norm = none then
        { cache with por_nombre := cache.por_nombre ++ [(nombre_norm, producto)] }
      else cache
    let cache :=
      if producto.codigo ≠ "" then
        { cache with por_codigo := alistSet cache.por_codigo producto.codigo producto }
      else cache
    let cache :=
      if producto.codigo_sat ≠ "" ∧ producto.codigo_sat ≠ "01010101" then
        let bucket := (alistLookup cache.por_codigo_sat producto.codigo_sat).getD [] ++ [producto]
        { cache with por_codigo_sat := alistSet cache.por_codigo_sat producto.codigo_sat bucket }
      else cache
    let nn := alistSet cache.nombres_normalizados producto.codigo nombre_norm
    { cache with nombres_normalizados := nn })
    { todos := productos }

/-- `CacheProductos.buscar_exacto`. -/
def buscar_exacto (cache : CacheProductos) (nombre : String) : Option ProductoERP :=
  alistLookup cache.por_nombre (normalizar_texto nombre)

/-- `CacheProductos.buscar_por_codigo_sat`. -/
def buscar_por_codigo_sat (cache : CacheProductos) (codigo_sat : String) :
    List ProductoERP :=
  if codigo_sat = "" ∨ codigo_sat = "01010101" then []
  else (alistLookup cache.por_codigo_sat codigo_sat).getD []

/-- `CacheProductos.buscar_unico_por_codigo_sat`. -/
def buscar_unico_por_codigo_sat (cache : CacheProductos) (codigo_sat : String) :
    Option ProductoERP :=
  match buscar_por_codigo_sat cache codigo_sat with
  | [p] => some p
  | _ => none

/-- `CacheProductos.buscar_por_codigo`. -/
def buscar_por_codigo (cache : CacheProductos) (codigo : String) : Option ProductoERP :=
  alistLookup cache.por_codigo codigo

/-- `CacheProductos.obtener_nombre_normalizado`. -/
def obtener_nombre_normalizado (cache : CacheProductos) (codigo : String) : String :=
  (alistLookup cache.nombres_normalizados codigo).getD ""

/-! ### Purchase-history collaborator (`src/matching/historial_compras.py`)

The matcher consumes the two per-supplier result lists of `HistorialCompras`
(history products, and history products annotated with `frecuencia`); the SQL
aggregation behind them runs against the store and is modelled as the
collaborator interface below, instantiated concretely in witnesses. -/

structure HistorialCompras where
  obtener_productos_proveedor : String → List ProductoERP
  obtener_productos_con_frecuencia : String → List ProductoERP

/-! ### Matching engine (`src/matching/producto_matcher.py`) -/

/-- `ProductoMatcher.margen_ambiguedad` (score-point gap below which the top
two candidates count as a tie). -/
def margen_ambiguedad : ℚ := 5

/-- Stable insert for the score-descending sort of `_fuzzy_match_lista`
(Python `list.sort(key=score, reverse=True)` is stable: equal scores keep
their original order). -/
def insertCandDesc (x : ProductoERP × ℚ) :
    List (ProductoERP × ℚ) → List (ProductoERP × ℚ)
  | [] => [x]
  | y :: ys => if y.2 ≤ x.2 then x :: y :: ys else y :: insertCandDesc x ys

/-- Stable score-descending sort (`candidatos.sort(key=lambda x: x[1], reverse=True)`). -/
def sortCandDesc : List (ProductoERP × ℚ) → List (ProductoERP × ℚ)
  | [] => []
  | x :: xs => insertCandDesc x (sortCandDesc xs)

/-- Stable insert for the (score, frequency)-descending sort of
`_fuzzy_match_token_set`. -/
def insertCandDescFreq (x : ProductoERP × ℚ) :
    List (ProductoERP × ℚ) → List (ProductoERP × ℚ)
  | [] => [x]
  | y :: ys =>
    if y.2 < x.2 ∨ (y.2 = x.2 ∧ y.1.frecuencia ≤ x.1.frecuencia) then x :: y :: ys
    else y :: insertCandDescFreq x ys

/-- Stable (score, frequency)-descending sort
(`candidatos.sort(key=lambda x: (x[1], x[0].frecuencia), reverse=True)`). -/
def sortCandDescFreq : List (ProductoERP × ℚ) → List (ProductoERP × ℚ)
  | [] => []
  | x :: xs => insertCandDescFreq x (sortCandDescFreq xs)

/-- The candidate pass of `_fuzzy_match_lista` / `_fuzzy_match_token_set`:
score every product against the normalized name (preferring the cached
normalized catalog name, falling back to normalizing `producto.nombre`),
keeping those at or above the threshold, in catalog order. -/
def candidatosLista (score : List Char → List Char → ℚ) (cache : CacheProductos)
    (nombre_normalizado : String) (productos : List ProductoERP) (umbral : ℕ) :
    List (ProductoERP × ℚ) :=
  (productos.map (fun producto =>
    let nombre_prod := obtener_nombre_normalizado cache producto.codigo
    let nombre_prod := if nombre_prod = "" then normalizar_texto producto.nombre else nombre_prod
    (producto, score nombre_normalizado.data nombre_prod.data))).filter
    (fun c => qofNat umbral ≤ c.2)

/-- `ProductoMatcher._fuzzy_match_lista`: order-insensitive (token-sort) fuzzy
match over a candidate list, rejecting as ambiguous when the top two scores
are closer than `margen_ambiguedad`.  Returns the winner (if any) and the
discarded-candidate count. -/
def fuzzy_match_lista (cache : CacheProductos) (nombre_normalizado : String)
    (productos : List ProductoERP) (umbral : ℕ) :
    Option (ProductoERP × ℚ) × ℕ :=
  let candidatos := candidatosLista token_sort_sim cache nombre_normalizado productos umbral
  let cands := sortCandDesc candidatos
  match cands with
  | [] => (none, 0)
  | c1 :: rest =>
    match rest with
    | c2 :: _ =>
      if qsub c1.2 c2.2 < margen_ambiguedad then (none, cands.length)
      else (some c1, cands.length - 1)
    | [] => (some c1, cands.length - 1)

/-- The post-sort selection step of `_fuzzy_match_token_set` (the code after
`candidatos.sort`): frequency tie-break on a tie, otherwise reject a
zero-frequency top scorer. -/
def seleccionTokenSet (cands : List (ProductoERP × ℚ)) :
    Option (ProductoERP × ℚ) × ℕ :=
  match cands with
  | [] => (none, 0)
  | c1 :: rest =>
    match rest with
    | c2 :: _ =>
      if qsub c1.2 c2.2 < margen_ambiguedad then
        if 0 < c1.1.frecuencia ∧ 0 < c2.1.frecuencia ∧ 2 * c2.1.frecuencia ≤ c1.1.frecuencia
        then (some c1, cands.length - 1)
        else (none, cands.length)
      else if c1.1.frecuencia = 0 then (none, cands.length)
      else (some c1, cands.length - 1)
    | [] =>
      if c1.1.frecuencia = 0 then (none, cands.length)
      else (some c1, cands.length - 1)

/-- `ProductoMatcher._fuzzy_match_token_set`: token-set fuzzy match with
frequency disambiguation. -/
def fuzzy_match_token_set (cache : CacheProductos) (nombre_normalizado : String)
    (productos : List ProductoERP) (umbral : ℕ) :
    Option (ProductoERP × ℚ) × ℕ :=
  seleccionTokenSet
    (sortCandDescFreq (candidatosLista token_set_sim cache nombre_normalizado productos umbral))

/-- An unmatched `ResultadoMatchProducto` (the bare dataclass constructions in
`producto_matcher.py`). -/
def mkNoMatch (concepto : Concepto) (mensaje : String := "") : ResultadoMatchProducto :=
  { concepto_xml := concepto, mensaje := mensaje }

/-- `ProductoMatcher._match_exacto` (step 1). -/
def match_exacto (cache : CacheProductos) (concepto : Concepto)
    (nombre_normalizado : String) : ResultadoMatchProducto :=
  match buscar_exacto cache nombre_normalizado with
  | some producto =>
      { concepto_xml := concepto, producto_erp := some producto, confianza := 1,
        nivel_confianza := "EXACTO", metodo_match := "exacto",
        mensaje := "Match exacto: " ++ producto.codigo }
  | none => mkNoMatch concepto

/-- `ProductoMatcher._match_historial_proveedor` (step 2). -/
def match_historial_proveedor (s : Settings) (cache : CacheProductos)
    (historial : HistorialCompras) (concepto : Concepto)
    (nombre_normalizado : String) (clave_proveedor : String) : ResultadoMatchProducto :=
  let productos_historial := historial.obtener_productos_proveedor clave_proveedor
  if productos_historial = [] then mkNoMatch concepto
  else
    match fuzzy_match_lista cache nombre_normalizado productos_historial s.umbral_match_producto with
    | (some (producto, score), candidatos) =>
        { concepto_xml := concepto, producto_erp := some producto,
          confianza := qdiv score 100, nivel_confianza := "ALTA",
          metodo_match := "historial", candidatos_descartados := candidatos,
          mensaje := "Match historial proveedor: " ++ producto.codigo }
    | (none, _) => mkNoMatch concepto

/-- `ProductoMatcher._match_historial_token_set` (step 2.5). -/
def match_historial_token_set (s : Settings) (cache : CacheProductos)
    (historial : HistorialCompras) (concepto : Concepto)
    (nombre_normalizado : String) (clave_proveedor : String) : ResultadoMatchProducto :=
  if nombre_normalizado.data.length < s.min_longitud_token_set then mkNoMatch concepto
  else
    let productos_freq := historial.obtener_productos_con_frecuencia clave_proveedor
    if productos_freq = [] then mkNoMatch concepto
    else
      match fuzzy_match_token_set cache nombre_normalizado productos_freq s.umbral_match_producto with
      | (some (producto, score), candidatos) =>
          { concepto_xml := concepto, producto_erp := some producto,
            confianza := qdiv score 100, nivel_confianza := "ALTA",
            metodo_match := "historial_token_set", candidatos_descartados := candidatos,
            mensaje := "Match historial token_set: " ++ producto.codigo }
      | (none, _) => mkNoMatch concepto

/-- `ProductoMatcher._match_codigo_sat` (step 3). -/
def match_codigo_sat (s : Settings) (cache : CacheProductos) (concepto : Concepto)
    (nombre_normalizado : String) : ResultadoMatchProducto :=
  let productos_sat := buscar_por_codigo_sat cache concepto.clave_prod_serv
  if productos_sat = [] then mkNoMatch concepto
  else
    match fuzzy_match_lista cache nombre_normalizado productos_sat s.umbral_match_producto with
    | (some (producto, score), candidatos) =>
        { concepto_xml := concepto, producto_erp := some producto,
          confianza := qdiv score 100, nivel_confianza := "ALTA",
          metodo_match := "codigo_sat", candidatos_descartados := candidatos,
          mensaje := "Match codigo SAT " ++ concepto.clave_prod_serv ++ ": " ++ producto.codigo }
    | (none, _) => mkNoMatch concepto

/-- `ProductoMatcher._match_catalogo_completo` (step 4, strict threshold
`umbral_match_exacto`). -/
def match_catalogo_completo (s : Settings) (cache : CacheProductos) (concepto : Concepto)
    (nombre_normalizado : String) : ResultadoMatchProducto :=
  let todos := cache.todos
  match fuzzy_match_lista cache nombre_normalizado todos s.umbral_match_exacto with
  | (some (producto, score), candidatos) =>
      { concepto_xml := concepto, producto_erp := some producto,
        confianza := qdiv score 100, nivel_confianza := "MEDIA",
        metodo_match := "fuzzy_global", candidatos_descartados := candidatos,
        mensaje := "Match catalogo completo: " ++ producto.codigo }
  | (none, _) => mkNoMatch concepto

/-- `ProductoMatcher.matchear_concepto`: the short-circuiting cascade. -/
def matchear_concepto (s : Settings) (cache : CacheProductos)
    (historial : HistorialCompras) (concepto : Concepto) (clave_proveedor : String) :
    ResultadoMatchProducto :=
  let descripcion_xml := concepto.descripcion
  let nombre_normalizado := normalizar_texto descripcion_xml
  if nombre_normalizado = "" then mkNoMatch concepto "Descripcion vacia en el XML"
  else
    let r1 := match_exacto cache concepto nombre_normalizado
    if r1.matcheado then r1
    else
      let r2 := match_historial_proveedor s cache historial concepto nombre_normalizado clave_proveedor
      if r2.matcheado then r2
      else
        let r25 :=
          if s.habilitar_token_set_historial then
            match_historial_token_set s cache historial concepto nombre_normalizado clave_proveedor
          else mkNoMatch concepto
        if r25.matcheado then r25
        else
          let r3 := match_codigo_sat s cache concepto nombre_normalizado
          if r3.matcheado then r3
          else
            let r4 := match_catalogo_completo s cache concepto nombre_normalizado
            if r4.matcheado then r4
            else mkNoMatch concepto ("No se encontro match para: " ++ descripcion_xml)

/-- `ProductoMatcher.matchear_lote`: independent per-item matching, same order. -/
def matchear_lote (s : Settings) (cache : CacheProductos) (historial : HistorialCompras)
    (conceptos : List Concepto) (clave_proveedor : String) : List ResultadoMatchProducto :=
  conceptos.map (fun c => matchear_concepto s cache historial c clave_proveedor)

/-! ### The store (`SAVRecC` / `SAVRecD` / `SAVNCredP`)

Modelled from the spec: the relational store behind `config/database.py`
(absent from the provided sources) exposes parametrized queries and an
exclusive-lock transaction scope (§6); it is modelled as lists of rows, and
each embedded query below is translated from the SQL string it executes.
Columns that no embedded query reads (display/constant columns such as
`TotalLetra`, `Paridad`, `Articulos`, audit users/timestamps) are omitted from
the row records; their values are constants or renderings of fields that are
present. -/

/-- A `SAVRecC` row (reception header: Serie F invoices and Serie R pending
deliveries).  `consolida` is the `Consolida` column filtered by the
cross-validation query; `consolidacion` is the `Consolidacion` column written
by the header insert. -/
structure RecRow where
  serie : String
  numRec : ℕ
  proveedor : String := ""
  proveedorNombre : String := ""
  fecha : Option ℕ := none
  estatus : String := ""
  subTotal1 : ℚ := 0
  iva : ℚ := 0
  total : ℚ := 0
  saldo : ℚ := 0
  factura : String := ""
  rfc : String := ""
  timbradoFolioFiscal : String := ""
  comentario : String := ""
  consolida : ℕ := 0
  consolidacion : ℕ := 0
  partidas : ℕ := 0
  deriving DecidableEq, Repr

/-- A `SAVRecD` row (reception detail line). -/
structure DetRow where
  serie : String
  numRec : ℕ
  producto : String
  talla : ℕ := 0
  nombre : String := ""
  proveedor : String := ""
  cantidad : ℚ := 0
  costo : ℚ := 0
  porcIva : ℚ := 0
  unidad : String := ""
  servicio : ℕ := 0
  cantidadNeta : ℚ := 0
  orden : ℕ := 0
  deriving DecidableEq, Repr

/-- A `SAVNCredP` row (credit-note header; the columns the embedded NC
duplicate checks and allocator read). -/
structure NCRow where
  serie : String
  ncredito : ℕ
  rfc : String := ""
  ncreditoProv : String := ""
  total : ℚ := 0
  timbradoFolioFiscal : String := ""
  deriving DecidableEq, Repr

/-- The modelled store. -/
structure DB where
  savRecC : List RecRow := []
  savRecD : List DetRow := []
  savNCredP : List NCRow := []
  deriving DecidableEq, Repr

/-- Python `str.upper()` on a whole string. -/
def pyUpperStr (s : String) : String := ⟨s.data.map pyUpper⟩

/-! ### Cross-validation gate (`src/erp/validacion_cruzada.py`) -/

/-- `ValidadorRemisiones._calcular_diferencia_monto`. -/
def calcular_diferencia_monto (total_remision total_factura : ℚ) : ℚ :=
  if total_factura = 0 then 100
  else qmul (qdiv (qabs (qsub total_remision total_factura)) total_factura) 100

/-- Sort key for `ORDER BY Fecha DESC` (SQL Server puts NULL dates last in
descending order). -/
def fechaKey : Option ℕ → ℤ
  | none => -1
  | some d => d

/-- Stable insert for the date-descending order of
`obtener_remisiones_pendientes`. -/
def insertRemDesc (x : RecRow) : List RecRow → List RecRow
  | [] => [x]
  | y :: ys => if fechaKey y.fecha ≤ fechaKey x.fecha then x :: y :: ys else y :: insertRemDesc x ys

/-- Stable date-descending sort. -/
def sortRemDesc : List RecRow → List RecRow
  | [] => []
  | x :: xs => insertRemDesc x (sortRemDesc xs)

/-- `ValidadorRemisiones.obtener_remisiones_pendientes`: pending Serie R rows
of a supplier (`Estatus != 'Consolidada' AND Consolida = 0`), newest first. -/
def obtener_remisiones_pendientes (db : DB) (clave_proveedor : String) :
    List RemisionPendiente :=
  let rows := db.savRecC.filter (fun r =>
    r.proveedor == clave_proveedor && r.serie == "R" &&
    r.estatus != "Consolidada" && r.consolida == 0)
  (sortRemDesc rows).map (fun row =>
    { serie := row.serie, num_rec := row.numRec, fecha := row.fecha,
      total := row.total, estatus := row.estatus, factura := row.factura,
      proveedor := row.proveedor })

/-- The best-candidate fold of `validar_antes_de_registro`: the candidate with
the strictly smallest `diferencia_monto_pct` seen so far wins (ties keep the
earlier, i.e. newer, delivery), starting from `menor = ∞`. -/
def mejorCandidato (remisiones : List RemisionPendiente) : Option RemisionPendiente :=
  remisiones.foldl (fun acc r =>
    match acc with
    | none => some r
    | some b => if r.diferencia_monto_pct < b.diferencia_monto_pct then some r else some b)
    none

/-- The per-delivery annotation loop of `validar_antes_de_registro`: attach
`diferencia_monto_pct` and `diferencia_dias` (999 when the delivery date is
missing; the invoice emission date models an always-present `datetime`). -/
def anotarRemisiones (remisiones : List RemisionPendiente) (total_factura : ℚ)
    (fecha_factura : ℕ) : List RemisionPendiente :=
  remisiones.map (fun remision =>
    let dmonto := calcular_diferencia_monto remision.total total_factura
    let ddias : ℕ :=
      match remision.fecha with
      | some fecha_rem => ((fecha_rem : ℤ) - (fecha_factura : ℤ)).natAbs
      | none => 999
    { remision with diferencia_monto_pct := dmonto, diferencia_dias := ddias })

/-- `ValidadorRemisiones.validar_antes_de_registro` (read-only: the store is an
argument and no updated store is returned). -/
def validar_antes_de_registro (s : Settings) (db : DB) (factura : Factura)
    (proveedor : ProveedorERP) : ResultadoValidacion :=
  if !s.validar_remisiones_pendientes then
    { clasificacion := "SEGURO", mensaje := "Validacion cruzada desactivada" }
  else
    let total_factura := factura.total
    if total_factura = 0 then
      { clasificacion := "SEGURO", mensaje := "Factura con total $0.00" }
    else
      let remisiones := obtener_remisiones_pendientes db proveedor.clave
      if remisiones = [] then
        { clasificacion := "SEGURO", total_remisiones_pendientes := 0,
          mensaje := "Sin remisiones pendientes" }
      else
        let anotadas := anotarRemisiones remisiones total_factura factura.fecha_emision
        match mejorCandidato anotadas with
        | some mc =>
          if mc.diferencia_monto_pct ≤ s.tolerancia_monto_validacion ∧
              mc.diferencia_dias ≤ s.dias_rango_validacion then
            { clasificacion := "BLOQUEAR", total_remisiones_pendientes := anotadas.length,
              remision_similar := some mc, remisiones_pendientes := anotadas,
              mensaje := "Remision pendiente similar" }
          else
            { clasificacion := "BLOQUEAR", total_remisiones_pendientes := anotadas.length,
              remision_similar := some mc, remisiones_pendientes := anotadas,
              mensaje := "Remisiones pendientes sin similar en monto/fecha" }
        | none =>
          { clasificacion := "BLOQUEAR", total_remisiones_pendientes := anotadas.length,
            remision_similar := none, remisiones_pendientes := anotadas,
            mensaje := "Remisiones pendientes sin candidato cercano" }

/-! ### Registration engine (`src/erp/registro_directo.py`)

The human-readable `mensaje` strings are abbreviated renderings of the Python
f-strings (no claim reads them); the `error` tokens are exact.  The post-commit
attachment step (`AttachmentManager`) is out of scope per §4.6.7 (its failure
is non-fatal and it does not touch the three modelled tables).  Store
infrastructure failures (§7) are not modelled: the store is always
reachable. -/

/-- `registro_directo.SERIE_FACTURA`. -/
def SERIE_FACTURA : String := "F"

/-- The match-percentage expression of `RegistradorDirecto.registrar` step 1:
`matched / total * 100` (0 for an invoice with no line items). -/
def porcentaje_matcheo (matches_ : List ResultadoMatchProducto) : ℚ :=
  if 0 < matches_.length then
    qmul (qdiv (qofNat (matches_.filter (fun m => m.matcheado)).length)
      (qofNat matches_.length)) 100
  else 0

/-- `RegistradorDirecto.verificar_uuid_existe`:
`COUNT(*) ... WHERE TimbradoFolioFiscal = ? AND Serie = ?` with the uppercased
UUID and Serie F. -/
def verificar_uuid_existe (db : DB) (uuid : String) : Bool :=
  let cuenta := (db.savRecC.filter (fun r =>
    r.timbradoFolioFiscal == pyUpperStr uuid && r.serie == SERIE_FACTURA)).length
  decide (0 < cuenta)

/-- `RegistradorDirecto.verificar_factura_duplicada`:
skip when the supplier folio is falsy, otherwise
`COUNT(*) ... WHERE Serie = 'F' AND RFC = ? AND Factura = ? AND Total = ? AND Fecha = ?`. -/
def verificar_factura_duplicada (db : DB) (factura_sat : Factura) : Bool :=
  let folio := factura_sat.folio.getD ""
  if folio = "" then false
  else
    let cuenta := (db.savRecC.filter (fun r =>
      r.serie == SERIE_FACTURA && r.rfc == factura_sat.rfc_emisor &&
      r.factura == folio && r.total == factura_sat.total &&
      r.fecha == some factura_sat.fecha_emision)).length
    decide (0 < cuenta)

/-- `RegistradorDirecto._obtener_siguiente_numrec_con_lock`:
`ISNULL(MAX(NumRec), 0) + 1` over Serie F under `UPDLOCK, HOLDLOCK`, then the
reserved-range floor `settings.numrec_rango_minimo`. -/
def obtener_siguiente_numrec_con_lock (s : Settings) (db : DB) : ℕ :=
  let siguiente := ((db.savRecC.filter (fun r => r.serie == SERIE_FACTURA)).map
    (fun r => r.numRec)).foldl max 0 + 1
  max siguiente s.numrec_rango_minimo

/-- Display rendering of a rational for comment strings (stands in for the
Python numeric formatting; display-only, never compared). -/
def qRender (q : ℚ) : String := toString q.num ++ "den" ++ toString q.den

/-- `RegistradorDirecto._construir_comentario`: `CFDI Folio: {folio or "S/N"}`,
plus, when line items went unmatched, `| PARCIAL - Sin match:` followed by one
`descripcion (cantidad unidad $importe)` fragment per unmatched item. -/
def construir_comentario (factura_sat : Factura)
    (no_matcheados : List ResultadoMatchProducto) : String :=
  let folio := factura_sat.folio.getD ""
  let comentario := "CFDI Folio: " ++ (if folio = "" then "S/N" else folio)
  if no_matcheados = [] then comentario
  else
    let faltantes := no_matcheados.map (fun m =>
      let c := m.concepto_xml
      let unidad := c.unidad.getD ""
      c.descripcion ++ " (" ++ qRender c.cantidad ++ " " ++
        (if unidad = "" then "PZ" else unidad) ++ " $" ++ qRender c.importe ++ ")")
    comentario ++ " | PARCIAL - Sin match: " ++ String.intercalate "; " faltantes

/-- The `PorcIva` determination of `_insertar_detalles`: the XML tax rate
(×100) when present and positive, else the catalog rate. -/
def porcIvaDetalle (producto : ProductoERP) (concepto : Concepto) : ℚ :=
  match concepto.impuesto_iva_tasa with
  | some tasa => if 0 < qmul tasa 100 then qmul tasa 100 else producto.porc_iva
  | none => producto.porc_iva

/-- Fallback product for the total `getD`; never reached: the detail loop runs
over matched results only. -/
def productoVacio : ProductoERP := { codigo := "", nombre := "" }

/-- `RegistradorDirecto._insertar_cabecera` (the row it inserts). -/
def mkCabecera (s : Settings) (num_rec : ℕ) (factura_sat : Factura)
    (proveedor : ProveedorERP) (no_matcheados : List ResultadoMatchProducto)
    (matcheados : List ResultadoMatchProducto) (subtotal iva total : ℚ) : RecRow :=
  { serie := SERIE_FACTURA, numRec := num_rec, proveedor := proveedor.clave,
    proveedorNombre := ⟨proveedor.empresa.data.take 60⟩,
    fecha := some factura_sat.fecha_emision,
    estatus := s.estatus_registro,
    subTotal1 := subtotal, iva := iva, total := total,
    saldo := total,
    factura := factura_sat.folio.getD "",
    rfc := factura_sat.rfc_emisor,
    timbradoFolioFiscal := pyUpperStr factura_sat.uuid,
    comentario := construir_comentario factura_sat no_matcheados,
    consolidacion := 0,
    partidas := matcheados.length }

/-- `RegistradorDirecto._insertar_detalles` (the rows it inserts: one row per
matched item, `Talla`/`Orden` = 1-based position). -/
def mkDetalles (num_rec : ℕ) (proveedor : ProveedorERP)
    (matcheados : List ResultadoMatchProducto) : List DetRow :=
  matcheados.enum.map (fun par =>
    let secuencia := par.1 + 1
    let m := par.2
    let concepto := m.concepto_xml
    let producto := m.producto_erp.getD productoVacio
    { serie := SERIE_FACTURA, numRec := num_rec, producto := producto.codigo,
      talla := secuencia,
      nombre := ⟨producto.nombre.data.take 80⟩,
      proveedor := proveedor.clave,
      cantidad := concepto.cantidad,
      costo := concepto.valor_unitario,
      porcIva := porcIvaDetalle producto concepto,
      unidad := if producto.unidad = "" then "KG" else producto.unidad,
      servicio := if producto.servicio then 1 else 0,
      cantidadNeta := m.cantidad_neta,
      orden := secuencia })

/-- The header row built inside the transaction of
`RegistradorDirecto.registrar`: totals from the matched items only for a
partial registration, the declared invoice totals otherwise. -/
def cabeceraTransaccion (s : Settings) (factura_sat : Factura)
    (proveedor : ProveedorERP) (matches_ : List ResultadoMatchProducto)
    (num_rec : ℕ) : RecRow :=
  let matcheados := matches_.filter (fun m => m.matcheado)
  let no_matcheados := matches_.filter (fun m => !m.matcheado)
  let subtotal_matcheados := qsum (matcheados.map (fun m => m.concepto_xml.importe))
  let iva_matcheados := qsum (matcheados.map (fun m => m.concepto_xml.impuesto_iva_importe.getD 0))
  let total_matcheados := qadd subtotal_matcheados iva_matcheados
  let es_parcial := decide (0 < no_matcheados.length)
  let subtotal := if es_parcial then subtotal_matcheados else factura_sat.subtotal
  let iva := if es_parcial then iva_matcheados else factura_sat.iva_trasladado
  let total := if es_parcial then total_matcheados else factura_sat.total
  mkCabecera s num_rec factura_sat proveedor no_matcheados matcheados subtotal iva total

/-- The body of the single `get_cursor` transaction scope of
`RegistradorDirecto.registrar` given the allocated number: header insert plus
detail inserts.  (The locked allocation read happens inside the same scope;
see `registrar` and the `PasoRegistro` model.) -/
def registrarTransaccion (s : Settings) (db : DB) (factura_sat : Factura)
    (proveedor : ProveedorERP) (matches_ : List ResultadoMatchProducto)
    (num_rec : ℕ) : DB :=
  let matcheados := matches_.filter (fun m => m.matcheado)
  { db with savRecC := db.savRecC ++ [cabeceraTransaccion s factura_sat proveedor matches_ num_rec],
            savRecD := db.savRecD ++ mkDetalles num_rec proveedor matcheados }

/-- `RegistradorDirecto.registrar`: match-percentage gate, the two duplicate
checks, dry-run short-circuit, then the single transaction (locked allocation
+ header insert + detail inserts).  Returns the result together with the
updated store. -/
def registrar (s : Settings) (db : DB) (factura_sat : Factura)
    (proveedor : ProveedorERP) (matches_ : List ResultadoMatchProducto)
    (dry_run : Bool) : ResultadoRegistro × DB :=
  let uuid := pyUpperStr factura_sat.uuid
  let matcheados := matches_.filter (fun m => m.matcheado)
  let no_matcheados := matches_.filter (fun m => !m.matcheado)
  let total_conceptos := matches_.length
  let conceptos_ok := matcheados.length
  let porcentaje := porcentaje_matcheo matches_
  if porcentaje < qofNat s.min_conceptos_match_porcentaje then
    ({ exito := false, factura_uuid := uuid, total_conceptos := total_conceptos,
       conceptos_matcheados_count := conceptos_ok,
       conceptos_no_matcheados := no_matcheados.map (fun m =>
         { concepto_xml := m.concepto_xml, motivo_no_registro := some m.mensaje }),
       mensaje := "Insuficientes conceptos matcheados",
       error := some "INSUFICIENTES_MATCHES" }, db)
  else if verificar_uuid_existe db uuid then
    ({ exito := false, factura_uuid := uuid, total_conceptos := total_conceptos,
       conceptos_matcheados_count := conceptos_ok,
       mensaje := "UUID ya existe en la BD",
       error := some "UUID_DUPLICADO" }, db)
  else if verificar_factura_duplicada db factura_sat then
    ({ exito := false, factura_uuid := uuid, total_conceptos := total_conceptos,
       conceptos_matcheados_count := conceptos_ok,
       mensaje := "Factura duplicada",
       error := some "FACTURA_DUPLICADA" }, db)
  else if dry_run then
    ({ exito := true, factura_uuid := uuid,
       numero_factura_erp := some "F-DRYRUN",
       total_conceptos := total_conceptos,
       conceptos_matcheados_count := conceptos_ok,
       registro_parcial := decide (0 < no_matcheados.length),
       conceptos_registrados := matcheados.map (fun m =>
         { concepto_xml := m.concepto_xml, producto_erp := m.producto_erp,
           registrado := true, confianza_match := m.confianza,
           metodo_match := m.metodo_match }),
       conceptos_no_matcheados := no_matcheados.map (fun m =>
         { concepto_xml := m.concepto_xml, motivo_no_registro := some m.mensaje }),
       mensaje := "DRY-RUN" }, db)
  else
    let nuevo_num_rec := obtener_siguiente_numrec_con_lock s db
    let db' := registrarTransaccion s db factura_sat proveedor matches_ nuevo_num_rec
    ({ exito := true, factura_uuid := uuid,
       numero_factura_erp := some ("F-" ++ toString nuevo_num_rec),
       total_conceptos := total_conceptos,
       conceptos_matcheados_count := conceptos_ok,
       registro_parcial := decide (0 < no_matcheados.length),
       conceptos_registrados := matcheados.map (fun m =>
         { concepto_xml := m.concepto_xml, producto_erp := m.producto_erp,
           registrado := true, confianza_match := m.confianza,
           metodo_match := m.metodo_match }),
       conceptos_no_matcheados := no_matcheados.map (fun m =>
         { concepto_xml := m.concepto_xml, motivo_no_registro := some m.mensaje }),
       mensaje := "Registrado" }, db')

/-! ### Credit-note checks and allocation (`src/erp/registro_nc.py`) -/

/-- `registro_nc.SERIE_NC`. -/
def SERIE_NC : String := "NCF"

/-- `RegistradorNC.verificar_uuid_nc_existe`. -/
def verificar_uuid_nc_existe (db : DB) (uuid : String) : Bool :=
  let cuenta := (db.savNCredP.filter (fun r =>
    r.timbradoFolioFiscal == pyUpperStr uuid && r.serie == SERIE_NC)).length
  decide (0 < cuenta)

/-- `RegistradorNC.verificar_nc_duplicada`: skip when the supplier folio is
falsy, otherwise `COUNT(*) ... WHERE Serie = ? AND RFC = ? AND NCreditoProv = ?
AND Total = ?` (no date column, unlike the invoice check). -/
def verificar_nc_duplicada (db : DB) (factura_sat : Factura) : Bool :=
  let folio := factura_sat.folio.getD ""
  if folio = "" then false
  else
    let cuenta := (db.savNCredP.filter (fun r =>
      r.serie == SERIE_NC && r.rfc == factura_sat.rfc_emisor &&
      r.ncreditoProv == folio && r.total == factura_sat.total)).length
    decide (0 < cuenta)

/-- `RegistradorNC._obtener_siguiente_ncredito_con_lock`:
`ISNULL(MAX(NCredito), 0) + 1` over Serie NCF under `UPDLOCK, HOLDLOCK`, then
the floor `settings.ncredito_rango_minimo`. -/
def obtener_siguiente_ncredito_con_lock (s : Settings) (db : DB) : ℕ :=
  let siguiente := ((db.savNCredP.filter (fun r => r.serie == SERIE_NC)).map
    (fun r => r.ncredito)).foldl max 0 + 1
  max siguiente s.ncredito_rango_minimo

/-- The shared allocation formula both allocators instantiate:
`max(existing) + 1`, clamped from below by the configured floor. -/
def siguienteNumero (existentes : List ℕ) (piso : ℕ) : ℕ :=
  max (existentes.foldl max 0 + 1) piso

/-! ### Net-quantity enrichment (`src/sheets/cantidad_neta_resolver.py`)

The Google-Sheets index keys are `(fecha.strftime('%Y-%m-%d'), producto_norm)`;
date-to-string formatting is injective, so the model keys by the day number
directly. -/

/-- The Sheets index `{(fecha, producto_norm) -> cantidad_neta}`. -/
abbrev SheetsIndex : Type := List ((ℕ × String) × ℚ)

/-- `CantidadNetaResolver._buscar_en_sheets` (positive quantities only). -/
def buscar_en_sheets (idx : SheetsIndex) (fecha : ℕ) (producto_norm : String) :
    Option ℚ :=
  match (List.find? (fun p => p.1.1 == fecha && p.1.2 == producto_norm) idx).map
      (fun p => p.2) with
  | some cantidad => if 0 < cantidad then some cantidad else none
  | none => none

/-- `CantidadNetaResolver._resolver_concepto`: XML name, then ERP name, then
unique-SAT-code fallback; 0 when nothing resolves. -/
def resolver_concepto (idx : SheetsIndex) (cache : CacheProductos) (fecha : ℕ)
    (concepto : Concepto) (m : ResultadoMatchProducto) : ℚ :=
  let nombre_xml := normalizar_texto concepto.descripcion
  let p1 := if nombre_xml ≠ "" then buscar_en_sheets idx fecha nombre_xml else none
  match p1 with
  | some cantidad => cantidad
  | none =>
    let p2 :=
      match m.producto_erp with
      | some prod =>
        let nombre_erp := normalizar_texto prod.nombre
        if nombre_erp ≠ "" ∧ nombre_erp ≠ nombre_xml then
          buscar_en_sheets idx fecha nombre_erp
        else none
      | none => none
    match p2 with
    | some cantidad => cantidad
    | none =>
      let p3 :=
        match m.producto_erp with
        | none =>
          match buscar_unico_por_codigo_sat cache concepto.clave_prod_serv with
          | some producto_sat =>
            let nombre_sat := normalizar_texto producto_sat.nombre
            if nombre_sat ≠ "" ∧ nombre_sat ≠ nombre_xml then
              buscar_en_sheets idx fecha nombre_sat
            else none
          | none => none
        | some _ => none
      p3.getD 0

/-- `CantidadNetaResolver.resolver_para_factura`: fill `cantidad_neta` in for
every match that resolves to a positive quantity (the Python mutates the list
in place; the model returns the updated list).  An empty index leaves all
matches untouched. -/
def resolver_para_factura (idx : SheetsIndex) (cache : CacheProductos)
    (factura : Factura) (matches_ : List ResultadoMatchProducto) :
    List ResultadoMatchProducto :=
  if idx = ([] : SheetsIndex) then matches_
  else matches_.map (fun m =>
    let cantidad := resolver_concepto idx cache factura.fecha_emision m.concepto_xml m
    if 0 < cantidad then { m with cantidad_neta := cantidad } else m)

/-! ### Concurrency model for registration transactions

Modelled from the spec: `config/database.py` (absent from the provided
sources) provides the `get_cursor` transaction scope, and §5/§4.6 require the
allocation read to take an exclusive, held lock (`UPDLOCK, HOLDLOCK`) on the
scanned rows until the same transaction's inserts commit.  The model is a step
relation over `N` in-flight registrations sharing one store: a transaction may
perform its locked allocation read only when no other transaction holds the
lock, then (still holding it) runs the insert body `registrarTransaccion`, then
commits and releases.  Program counters: 0 = not started, 1 = allocated
(holding the lock), 2 = inserted (holding the lock), 3 = committed. -/

/-- One in-flight registration: the document and collaborators its transaction
writes. -/
structure TxDoc where
  factura : Factura
  proveedor : ProveedorERP
  matches_ : List ResultadoMatchProducto

/-- Shared system state for `n` concurrent registrations. -/
structure EstadoSistema (n : ℕ) where
  db : DB
  lock : Option (Fin n)
  pc : Fin n → ℕ
  num : Fin n → ℕ

/-- Interleaving semantics of the locked transaction protocol. -/
inductive PasoRegistro (s : Settings) {n : ℕ} (docs : Fin n → TxDoc) :
    EstadoSistema n → EstadoSistema n → Prop
  | adquirir (i : Fin n) (st : EstadoSistema n)
      (hlock : st.lock = none) (hpc : st.pc i = 0) :
      PasoRegistro s docs st
        { db := st.db, lock := some i,
          pc := Function.update st.pc i 1,
          num := Function.update st.num i (obtener_siguiente_numrec_con_lock s st.db) }
  | insertar (i : Fin n) (st : EstadoSistema n)
      (hlock : st.lock = some i) (hpc : st.pc i = 1) :
      PasoRegistro s docs st
        { db := registrarTransaccion s st.db (docs i).factura (docs i).proveedor
            (docs i).matches_ (st.num i),
          lock := some i,
          pc := Function.update st.pc i 2,
          num := st.num }
  | confirmar (i : Fin n) (st : EstadoSistema n)
      (hlock : st.lock = some i) (hpc : st.pc i = 2) :
      PasoRegistro s docs st
        { db := st.db, lock := none,
          pc := Function.update st.pc i 3,
          num := st.num }

/-- Initial state: shared store `db0`, lock free, nothing started. -/
def estadoInicial (n : ℕ) (db0 : DB) : EstadoSistema n :=
  { db := db0, lock := none, pc := fun _ => 0, num := fun _ => 0 }

/-- Reachability under the interleaving semantics. -/
def Alcanzable (s : Settings) {n : ℕ} (docs : Fin n → TxDoc) (db0 : DB)
    (st : EstadoSistema n) : Prop :=
  Relation.ReflTransGen (PasoRegistro s docs) (estadoInicial n db0) st

/-! ### Specification-side definitions (for refinement-style claims) -/

/-- The token-set tie-break/acceptance rule in the words of the claim: on a
tie (top-two gap under the margin) accept the top candidate exactly when both
frequencies are non-zero and the top frequency is at least twice the
runner-up's; with no tie accept the top candidate exactly when its frequency
is non-zero. -/
def seleccionTokenSetSpec (cands : List (ProductoERP × ℚ)) : Option (ProductoERP × ℚ) :=
  match cands with
  | [] => none
  | [c1] => if c1.1.frecuencia ≠ 0 then some c1 else none
  | c1 :: c2 :: _ =>
    if qsub c1.2 c2.2 < margen_ambiguedad then
      if c1.1.frecuencia ≠ 0 ∧ c2.1.frecuencia ≠ 0 ∧ 2 * c2.1.frecuencia ≤ c1.1.frecuencia
      then some c1 else none
    else if c1.1.frecuencia ≠ 0 then some c1 else none

/-- A match result with its net quantity erased (for stating that registration
outcomes do not depend on the enrichment). -/
def quitarCantidadNeta (m : ResultadoMatchProducto) : ResultadoMatchProducto :=
  { m with cantidad_neta := 0 }

/-- A detail row with its `CantidadNeta` column erased. -/
def quitarCantidadNetaDet (d : DetRow) : DetRow :=
  { d with cantidadNeta := 0 }

/-- A match result with its net quantity set by an arbitrary enrichment
assignment `g` (every run of `resolver_para_factura` has this shape). -/
def conCantidadNeta (g : ResultadoMatchProducto → ℚ) (m : ResultadoMatchProducto) :
    ResultadoMatchProducto :=
  { m with cantidad_neta := g m }

/-! ### Concrete instances used by witnesses and counterexamples -/

/-- Default settings (`config/settings.py` defaults; floors per the reserved
range the registrar docstring names). -/
def ajustesW : Settings := {}

/-- Two catalog products sharing the catalog name `C AB` (so their normalized
names tie at score 100 against the line description `AB C`). -/
def prodAmb1 : ProductoERP := { codigo := "P1", nombre := "C AB" }

/-- Second product with the same catalog name. -/
def prodAmb2 : ProductoERP := { codigo := "P2", nombre := "C AB" }

/-- Catalog cache over the two ambiguous products. -/
def cacheAmb : CacheProductos := cargar [prodAmb1, prodAmb2]

/-- History collaborator returning both ambiguous products for any supplier. -/
def histAmb : HistorialCompras :=
  { obtener_productos_proveedor := fun _ => [prodAmb1, prodAmb2],
    obtener_productos_con_frecuencia := fun _ => [prodAmb1, prodAmb2] }

/-- A line item whose description ties both ambiguous products at 100 and
whose classification code is the generic placeholder (so the SAT stage finds
no candidates). -/
def conceptoAmb : Concepto := { descripcion := "AB C", clave_prod_serv := "01010101" }

/-- Token-set example products: score-92 candidate with frequency 10. -/
def prodFreq10 : ProductoERP := { codigo := "A", nombre := "A", frecuencia := 10 }

/-- Token-set example: score-90 runner-up with frequency 4. -/
def prodFreq4 : ProductoERP := { codigo := "B", nombre := "B", frecuencia := 4 }

/-- Token-set example: score-92 candidate with frequency 3. -/
def prodFreq3 : ProductoERP := { codigo := "C", nombre := "C", frecuencia := 3 }

/-- Token-set example: score-90 runner-up with frequency 2. -/
def prodFreq2 : ProductoERP := { codigo := "D", nombre := "D", frecuencia := 2 }

/-- Cross-validation witness supplier. -/
def provW : ProveedorERP := { clave := "000123", empresa := "PROVEEDOR UNO", rfc := "AAA010101AAA" }

/-- A pending Serie R delivery of `provW` (total 500, day 100). -/
def remisionW : RecRow :=
  { serie := "R", numRec := 10, proveedor := "000123", fecha := some 100,
    estatus := "No Pagada", total := 500 }

/-- Store with one pending delivery (cross-validation witness). -/
def dbValW : DB := { savRecC := [remisionW] }

/-- Invoice close to the pending delivery (total 500, day 102). -/
def facturaValW : Factura :=
  { uuid := "UV", rfc_emisor := "AAA010101AAA", total := 500, fecha_emision := 102 }

/-- Invoice with total 0 (cross-validation edge case). -/
def facturaCeroW : Factura :=
  { uuid := "U0", rfc_emisor := "AAA010101AAA", total := 0, fecha_emision := 102 }

/-- One Serie F header at the production-range number the race was observed
on. -/
def rowNumW : RecRow := { serie := "F", numRec := 68949 }

/-- Allocation witness store (holds `rowNumW` and one Serie NCF header). -/
def dbNumW : DB :=
  { savRecC := [rowNumW],
    savNCredP := [{ serie := "NCF", ncredito := 5 }] }

/-- A matched line item for the registration witnesses. -/
def conRegW : Concepto :=
  { descripcion := "CEBOLLA", cantidad := 2, valor_unitario := 50, importe := 100,
    clave_prod_serv := "50405800", impuesto_iva_importe := some 16,
    impuesto_iva_tasa := some (mkRat 16 100) }

/-- The catalog product the witness line item matched. -/
def prodRegW : ProductoERP :=
  { codigo := "FYV002011", nombre := "CEBOLLA BLANCA", unidad := "KG", porc_iva := 16 }

/-- Registration witness invoice (folio F001, total 116). -/
def facturaRegW : Factura :=
  { uuid := "uuid-1", rfc_emisor := "AAA010101AAA", folio := some "F001",
    fecha_emision := 50, subtotal := 100, iva_trasladado := 16, total := 116,
    conceptos := [conRegW] }

/-- Match results for the registration witness: the single item matched. -/
def matchesRegW : List ResultadoMatchProducto :=
  [{ concepto_xml := conRegW, producto_erp := some prodRegW, confianza := 1,
     nivel_confianza := "EXACTO", metodo_match := "exacto" }]

/-- Second line item (unmatched) for the partial-registration witness. -/
def conParcW : Concepto :=
  { descripcion := "PRODUCTO RARO", cantidad := 1, valor_unitario := 30, importe := 30 }

/-- Third line item (matched) for the partial-registration witness. -/
def conParc2W : Concepto :=
  { descripcion := "PAPA", cantidad := 3, valor_unitario := 10, importe := 30,
    impuesto_iva_importe := some 0 }

/-- Catalog product for the third line item. -/
def prodParcW : ProductoERP := { codigo := "FYV001", nombre := "PAPA BLANCA", unidad := "KG" }

/-- Partial-registration witness invoice: three items, one unmatched. -/
def facturaParcW : Factura :=
  { uuid := "uuid-2", rfc_emisor := "AAA010101AAA", folio := some "F002",
    fecha_emision := 51, subtotal := 160, iva_trasladado := 16, total := 176,
    conceptos := [conRegW, conParcW, conParc2W] }

/-- Match results for the partial-registration witness: items 1 and 3 matched,
item 2 unmatched. -/
def matchesParcW : List ResultadoMatchProducto :=
  [{ concepto_xml := conRegW, producto_erp := some prodRegW, confianza := 1,
     nivel_confianza := "EXACTO", metodo_match := "exacto" },
   { concepto_xml := conParcW, mensaje := "No se encontro match para: PRODUCTO RARO" },
   { concepto_xml := conParc2W, producto_erp := some prodParcW, confianza := mkRat 92 100,
     nivel_confianza := "ALTA", metodo_match := "historial" }]

/-! #### Concrete two-transaction run of the concurrency model -/

/-- First concurrent document. -/
def docC9a : TxDoc :=
  { factura := facturaRegW, proveedor := provW, matches_ := matchesRegW }

/-- Second concurrent document (distinct UUID/folio). -/
def docC9b : TxDoc :=
  { factura := { facturaRegW with uuid := "uuid-9", folio := some "F009" },
    proveedor := provW, matches_ := matchesRegW }

/-- The two concurrent registrations, as a family over `Fin 2`. -/
def docsC9 : Fin 2 → TxDoc := fun i => if i = 0 then docC9a else docC9b

/-- Initial store for the concurrent run (empty). -/
def dbC9 : DB := {}

/-- State after transaction 0 acquires the lock and allocates. -/
def stC9a : EstadoSistema 2 :=
  { db := (estadoInicial 2 dbC9).db, lock := some 0,
    pc := Function.update (estadoInicial 2 dbC9).pc 0 1,
    num := Function.update (estadoInicial 2 dbC9).num 0
      (obtener_siguiente_numrec_con_lock ajustesW (estadoInicial 2 dbC9).db) }

/-- State after transaction 0 runs its inserts. -/
def stC9b : EstadoSistema 2 :=
  { db := registrarTransaccion ajustesW stC9a.db (docsC9 0).factura (docsC9 0).proveedor
      (docsC9 0).matches_ (stC9a.num 0),
    lock := some 0, pc := Function.update stC9a.pc 0 2, num := stC9a.num }

/-- State after transaction 0 commits and releases the lock. -/
def stC9c : EstadoSistema 2 :=
  { db := stC9b.db, lock := none, pc := Function.update stC9b.pc 0 3, num := stC9b.num }

/-- State after transaction 1 acquires the lock and allocates. -/
def stC9d : EstadoSistema 2 :=
  { db := stC9c.db, lock := some 1,
    pc := Function.update stC9c.pc 1 1,
    num := Function.update stC9c.num 1
      (obtener_siguiente_numrec_con_lock ajustesW stC9c.db) }

/-- State after transaction 1 runs its inserts. -/
def stC9e : EstadoSistema 2 :=
  { db := registrarTransaccion ajustesW stC9d.db (docsC9 1).factura (docsC9 1).proveedor
      (docsC9 1).matches_ (stC9d.num 1),
    lock := some 1, pc := Function.update stC9d.pc 1 2, num := stC9d.num }

/-- Final state: both transactions committed. -/
def stC9f : EstadoSistema 2 :=
  { db := stC9e.db, lock := none, pc := Function.update stC9e.pc 1 3, num := stC9e.num }

/-- Invoice with no supplier folio (duplicate-check witnesses). -/
def facturaSinFolioW : Factura :=
  { uuid := "U-SF", rfc_emisor := "BBB010101BB1", folio := none,
    fecha_emision := 7, total := 99 }

/-- Store holding rows that agree with `facturaSinFolioW` on every compared
column except the (empty) folio, for both record types: the folio-less checks
return false even against it. -/
def dbDupW : DB :=
  { savRecC := [{ serie := "F", numRec := 1, rfc := "BBB010101BB1",
                  factura := "", total := 99, fecha := some 7 }],
    savNCredP := [{ serie := "NCF", ncredito := 1, rfc := "BBB010101BB1",
                    ncreditoProv := "", total := 99 }] }

/-- ASCII input for the idempotence witness. -/
def textoW : String := "  hola\tMUNDO  feliz "

/-- Current maximum Serie F number in the store (the `ISNULL(MAX(NumRec), 0)`
read of the allocator). -/
def maxNumF (db : DB) : ℕ :=
  ((db.savRecC.filter (fun r => r.serie == SERIE_FACTURA)).map
    (fun r => r.numRec)).foldl max 0

/-- Inductive invariant of the locked-transaction interleaving model: program
counters stay in range; a transaction between its allocation read and its
commit holds the lock; allocated numbers respect the floor, stay consistent
with the store maximum, and are pairwise distinct; inserted transactions have
their header row in the store. -/
def InvarianteC9 (s : Settings) {n : ℕ} (docs : Fin n → TxDoc)
    (st : EstadoSistema n) : Prop :=
  (∀ i, st.pc i ≤ 3) ∧
  (∀ i, st.pc i = 1 ∨ st.pc i = 2 → st.lock = some i) ∧
  (∀ i, 1 ≤ st.pc i → s.numrec_rango_minimo ≤ st.num i ∧ 0 < st.num i) ∧
  (∀ i, st.pc i = 2 ∨ st.pc i = 3 → st.num i ≤ maxNumF st.db) ∧
  (∀ i, st.pc i = 1 → maxNumF st.db < st.num i) ∧
  (∀ i j, i ≠ j → 1 ≤ st.pc i → 1 ≤ st.pc j → st.num i ≠ st.num j) ∧
  (∀ i, st.pc i = 2 ∨ st.pc i = 3 →
    cabeceraTransaccion s (docs i).factura (docs i).proveedor (docs i).matches_
      (st.num i) ∈ st.db.savRecC)

/-! ## Theorems

### Bridges between the kernel-computable arithmetic and Mathlib -/

theorem qadd_eq (a b : ℚ) : qadd a b = a + b := by
  have ha : (a.den : ℚ) ≠ 0 := by exact_mod_cast a.den_nz
  have hb : (b.den : ℚ) ≠ 0 := by exact_mod_cast b.den_nz
  rw [qadd, Rat.mkRat_eq_div]
  push_cast
  conv_rhs => rw [← Rat.num_div_den a, ← Rat.num_div_den b, div_add_div _ _ ha hb]
  ring_nf

theorem qsub_eq (a b : ℚ) : qsub a b = a - b := by
  have ha : (a.den : ℚ) ≠ 0 := by exact_mod_cast a.den_nz
  have hb : (b.den : ℚ) ≠ 0 := by exact_mod_cast b.den_nz
  rw [qsub, Rat.mkRat_eq_div]
  push_cast
  conv_rhs => rw [← Rat.num_div_den a, ← Rat.num_div_den b, div_sub_div _ _ ha hb]
  ring_nf

theorem qmul_eq (a b : ℚ) : qmul a b = a * b := by
  have ha : (a.den : ℚ) ≠ 0 := by exact_mod_cast a.den_nz
  have hb : (b.den : ℚ) ≠ 0 := by exact_mod_cast b.den_nz
  rw [qmul, Rat.mkRat_eq_div]
  push_cast
  conv_rhs => rw [← Rat.num_div_den a, ← Rat.num_div_den b, div_mul_div_comm]

theorem qdiv_eq (a b : ℚ) : qdiv a b = a / b := by
  rcases eq_or_ne b 0 with rfl | hb
  · rw [qdiv, Rat.mkRat_eq_div]
    simp
  · have ha : (a.den : ℚ) ≠ 0 := by exact_mod_cast a.den_nz
    have hbn : b.num ≠ 0 := Rat.num_ne_zero.2 hb
    have hbnQ : (b.num : ℚ) ≠ 0 := by exact_mod_cast hbn
    have hbd : (b.den : ℚ) ≠ 0 := by exact_mod_cast b.den_nz
    rw [qdiv, Rat.mkRat_eq_div]
    push_cast
    conv_rhs => rw [← Rat.num_div_den a, ← Rat.num_div_den b]
    have hcast : ((b.num.natAbs : ℕ) : ℚ) = |(b.num : ℚ)| := by
      simp [Int.cast_natAbs]
    rcases hbn.lt_or_lt with hneg | hpos
    · have hnQ : (b.num : ℚ) < 0 := by exact_mod_cast hneg
      have hs : ((b.num.sign : ℤ) : ℚ) = -1 := by
        rw [Int.sign_eq_neg_one_of_neg hneg]; norm_num
      have hA : ((b.num.natAbs : ℕ) : ℚ) = -(b.num : ℚ) := by
        rw [hcast, abs_of_neg hnQ]
      rw [show ((b.num.sign : ℚ)) = ((b.num.sign : ℤ) : ℚ) from rfl] at *
      rw [hs, hA]
      field_simp
    · have hnQ : (0 : ℚ) < (b.num : ℚ) := by exact_mod_cast hpos
      have hs : ((b.num.sign : ℤ) : ℚ) = 1 := by
        rw [Int.sign_eq_one_of_pos hpos]; norm_num
      have hA : ((b.num.natAbs : ℕ) : ℚ) = (b.num : ℚ) := by
        rw [hcast, abs_of_pos hnQ]
      rw [show ((b.num.sign : ℚ)) = ((b.num.sign : ℤ) : ℚ) from rfl] at *
      rw [hs, hA]
      field_simp

theorem qabs_eq (a : ℚ) : qabs a = |a| := by
  have hd : (0 : ℚ) < (a.den : ℚ) := by exact_mod_cast a.pos
  rw [qabs, Rat.mkRat_eq_div]
  conv_rhs => rw [← Rat.num_div_den a]
  rw [abs_div, abs_of_pos hd]
  congr 1
  simp [Int.cast_natAbs]

theorem qsum_eq (l : List ℚ) : qsum l = l.sum := by
  have h : ∀ (l : List ℚ) (acc : ℚ), l.foldl qadd acc = acc + l.sum := by
    intro l
    induction l with
    | nil => intro acc; simp
    | cons x xs ih =>
      intro acc
      simp only [List.foldl_cons, List.sum_cons, ih, qadd_eq]
      ring
  simpa using h l 0

theorem qofNat_eq (n : ℕ) : qofNat n = (n : ℚ) := by
  rw [qofNat, Rat.mkRat_eq_div]
  simp

theorem qmax_eq (a b : ℚ) : qmax a b = max a b := by
  rw [qmax, max_def]

/-! ### C10 — folio-less documents skip the second duplicate check -/

/-- C10: for every invoice or credit note whose supplier folio is empty or
missing, `verificar_factura_duplicada` and `verificar_nc_duplicada` return
false for every store state (the store query is skipped entirely), so
duplicate detection for folio-less documents rests on the UUID check alone. -/
theorem c10_duplicado_omitido_sin_folio (db : DB) (f : Factura)
    (h : f.folio = none ∨ f.folio = some "") :
    verificar_factura_duplicada db f = false ∧ verificar_nc_duplicada db f = false := by
  have hfol : f.folio.getD "" = "" := by rcases h with h | h <;> simp [h]
  constructor <;> simp [verificar_factura_duplicada, verificar_nc_duplicada, hfol]

/-- Witness for C10: the checks return false even against a store whose rows
agree on every other compared column. -/
theorem c10_witness :
    verificar_factura_duplicada dbDupW facturaSinFolioW = false ∧
    verificar_nc_duplicada dbDupW facturaSinFolioW = false :=
  c10_duplicado_omitido_sin_folio dbDupW facturaSinFolioW (Or.inl rfl)

/-! ### C8 — normalization is not idempotent on full Unicode -/

/-- Counterexample to C8 as stated: U+00BA `º` has no uppercase mapping but
NFKD-decomposes to the lowercase `o`, so `normalizar_texto 'º' = 'o'` while a
second application uppercases it to `O`. -/
theorem c8_counterexample :
    normalizar_texto "º" = "o" ∧
    normalizar_texto (normalizar_texto "º") = "O" ∧
    normalizar_texto (normalizar_texto "º") ≠ normalizar_texto "º" := by decide

/-! ### C4 — the ambiguity discard count is not propagated to the result -/

/-- Counterexample to C4 as stated: two history candidates score 100 against
the line description (two above-threshold candidates, gap 0 < 5), the history
stage rejects as ambiguous with count 2, no later stage matches, and the
resulting `ResultadoMatchProducto` is NO_MATCH with
`candidatos_descartados = 0`, not 2. -/
theorem c4_counterexample :
    (candidatosLista token_sort_sim cacheAmb "AB C" [prodAmb1, prodAmb2] 90).length = 2 ∧
    fuzzy_match_lista cacheAmb "AB C" [prodAmb1, prodAmb2] 90 = (none, 2) ∧
    (matchear_concepto ajustesW cacheAmb histAmb conceptoAmb "PROV").producto_erp = none ∧
    (matchear_concepto ajustesW cacheAmb histAmb conceptoAmb "PROV").nivel_confianza = "NO_MATCH" ∧
    (matchear_concepto ajustesW cacheAmb histAmb conceptoAmb "PROV").candidatos_descartados = 0 := by
  decide

/-! ### C7 — token-set frequency tie-break -/

/-- The selection step of the token-set stage agrees with the claim's
acceptance rule on every sorted candidate list. -/
theorem seleccion_token_set_eq_spec (cands : List (ProductoERP × ℚ)) :
    (seleccionTokenSet cands).1 = seleccionTokenSetSpec cands := by
  match cands with
  | [] => rfl
  | [c1] =>
    simp only [seleccionTokenSet, seleccionTokenSetSpec]
    by_cases h : c1.1.frecuencia = 0 <;> simp [h]
  | c1 :: c2 :: rest =>
    simp only [seleccionTokenSet, seleccionTokenSetSpec]
    by_cases htie : qsub c1.2 c2.2 < margen_ambiguedad
    · simp only [if_pos htie]
      by_cases h1 : c1.1.frecuencia = 0
      · simp [h1]
      · by_cases h2 : c2.1.frecuencia = 0
        · simp [h1, h2]
        · by_cases h3 : 2 * c2.1.frecuencia ≤ c1.1.frecuencia
          · simp [h1, h2, h3, Nat.pos_of_ne_zero]
          · simp [h1, h2, h3]
    · simp only [if_neg htie]
      by_cases h1 : c1.1.frecuencia = 0 <;> simp [h1]

/-- C7: in the token-set history stage, the accepted candidate is exactly the
one the claim's rule selects from the (score, frequency)-sorted above-threshold
candidates: on a tie (gap < 5) the top candidate is accepted iff both
frequencies are non-zero and the top one is at least twice the runner-up's;
with no tie iff its frequency is non-zero.  The claim's two worked examples:
score 92 freq 10 vs score 90 freq 4 is accepted (1 candidate discarded), and
score 92 freq 3 vs score 90 freq 2 is rejected as ambiguous (2 discarded). -/
theorem c7_desempate_frecuencia_token_set :
    (∀ (cache : CacheProductos) (nombre : String) (productos : List ProductoERP) (umbral : ℕ),
        (fuzzy_match_token_set cache nombre productos umbral).1 =
          seleccionTokenSetSpec
            (sortCandDescFreq (candidatosLista token_set_sim cache nombre productos umbral))) ∧
    seleccionTokenSet [(prodFreq10, 92), (prodFreq4, 90)] = (some (prodFreq10, 92), 1) ∧
    seleccionTokenSet [(prodFreq3, 92), (prodFreq2, 90)] = (none, 2) := by
  refine ⟨fun cache nombre productos umbral => ?_, by decide, by decide⟩
  rw [fuzzy_match_token_set]
  exact seleccion_token_set_eq_spec _

/-! ### C2 — sequence allocation: max + 1, clamped by the floor, in the
transaction -/

/-- The seed of a `foldl max` is a lower bound of the result. -/
theorem foldl_max_init_le (l : List ℕ) : ∀ acc, acc ≤ l.foldl max acc := by
  induction l with
  | nil => intro acc; simp
  | cons x xs ih =>
    intro acc
    simp only [List.foldl_cons]
    exact le_trans (le_max_left acc x) (ih (max acc x))

/-- Every member of a list is a lower bound of its `foldl max`. -/
theorem mem_le_foldl_max (l : List ℕ) (a : ℕ) (h : a ∈ l) :
    ∀ acc, a ≤ l.foldl max acc := by
  induction l with
  | nil => cases h
  | cons x xs ih =>
    intro acc
    simp only [List.foldl_cons]
    rcases List.mem_cons.1 h with rfl | hmem
    · exact le_trans (le_max_right acc a) (foldl_max_init_le xs (max acc a))
    · exact ih hmem (max acc x)

/-- C2: both allocators compute `max(existing numbers of the record type) + 1`
clamped from below by the configured floor — the same formula
`siguienteNumero`, instantiated on Serie F `NumRec`s and Serie NCF
`NCredito`s respectively — so the returned number is at least the floor and
strictly above every existing number of its record type; and a successful
non-simulated registration commits exactly the transaction body
`registrarTransaccion` run on the pre-transaction store with the number the
locked read computed from that same store, every inserted header and detail
row carrying that number. -/
theorem c2_numeracion_max_mas_uno_con_piso (s : Settings) (db : DB) (f : Factura)
    (prov : ProveedorERP) (m_ : List ResultadoMatchProducto) :
    obtener_siguiente_numrec_con_lock s db =
      siguienteNumero
        ((db.savRecC.filter (fun r => r.serie == SERIE_FACTURA)).map (fun r => r.numRec))
        s.numrec_rango_minimo ∧
    obtener_siguiente_ncredito_con_lock s db =
      siguienteNumero
        ((db.savNCredP.filter (fun r => r.serie == SERIE_NC)).map (fun r => r.ncredito))
        s.ncredito_rango_minimo ∧
    s.numrec_rango_minimo ≤ obtener_siguiente_numrec_con_lock s db ∧
    s.ncredito_rango_minimo ≤ obtener_siguiente_ncredito_con_lock s db ∧
    (∀ r ∈ db.savRecC, r.serie = "F" →
      r.numRec < obtener_siguiente_numrec_con_lock s db) ∧
    (∀ r ∈ db.savNCredP, r.serie = "NCF" →
      r.ncredito < obtener_siguiente_ncredito_con_lock s db) ∧
    ((registrar s db f prov m_ false).1.exito = true →
      (registrar s db f prov m_ false).2 =
        registrarTransaccion s db f prov m_ (obtener_siguiente_numrec_con_lock s db)) ∧
    (cabeceraTransaccion s f prov m_ (obtener_siguiente_numrec_con_lock s db)).numRec =
      obtener_siguiente_numrec_con_lock s db ∧
    (∀ d ∈ mkDetalles (obtener_siguiente_numrec_con_lock s db) prov
        (m_.filter (fun m => m.matcheado)),
      d.numRec = obtener_siguiente_numrec_con_lock s db) := by
  refine ⟨rfl, rfl, le_max_right _ _, le_max_right _ _, ?_, ?_, ?_, rfl, ?_⟩
  · intro r hr hserie
    have hmem : r.numRec ∈
        (db.savRecC.filter (fun r => r.serie == SERIE_FACTURA)).map (fun r => r.numRec) :=
      List.mem_map_of_mem _ (List.mem_filter.2 ⟨hr, by simp [hserie, SERIE_FACTURA]⟩)
    have hle := mem_le_foldl_max _ _ hmem 0
    calc r.numRec < _ + 1 := Nat.lt_succ_of_le hle
      _ ≤ obtener_siguiente_numrec_con_lock s db := le_max_left _ _
  · intro r hr hserie
    have hmem : r.ncredito ∈
        (db.savNCredP.filter (fun r => r.serie == SERIE_NC)).map (fun r => r.ncredito) :=
      List.mem_map_of_mem _ (List.mem_filter.2 ⟨hr, by simp [hserie, SERIE_NC]⟩)
    have hle := mem_le_foldl_max _ _ hmem 0
    calc r.ncredito < _ + 1 := Nat.lt_succ_of_le hle
      _ ≤ obtener_siguiente_ncredito_con_lock s db := le_max_left _ _
  · intro hx
    simp only [registrar] at hx ⊢
    split_ifs at hx ⊢ <;> first | rfl | simp_all
  · intro d hd
    simp only [mkDetalles, List.mem_map] at hd
    obtain ⟨p, hp, rfl⟩ := hd
    rfl

/-- Witness for C2: over a store holding Serie F number 68949 and Serie NCF
number 5, both allocators land on the 900000 floor, above the existing
numbers. -/
theorem c2_witness :
    900000 ≤ obtener_siguiente_numrec_con_lock ajustesW dbNumW ∧
    rowNumW.numRec < obtener_siguiente_numrec_con_lock ajustesW dbNumW ∧
    obtener_siguiente_numrec_con_lock ajustesW dbNumW = 900000 ∧
    obtener_siguiente_ncredito_con_lock ajustesW dbNumW = 900000 := by
  refine ⟨?_, ?_, by decide, by decide⟩
  · exact (c2_numeracion_max_mas_uno_con_piso ajustesW dbNumW facturaRegW provW
      matchesRegW).2.2.1
  · exact (c2_numeracion_max_mas_uno_con_piso ajustesW dbNumW facturaRegW provW
      matchesRegW).2.2.2.2.1 rowNumW (by decide) rfl

/-! ### C3 — cross-validation classification -/

/-- The best-candidate fold, started from a seed, returns a minimal element of
seed-plus-list (ties keep the earlier element). -/
theorem mejorCandidato_aux (l : List RemisionPendiente) :
    ∀ b : RemisionPendiente,
      ∃ mc,
        l.foldl (fun acc r =>
          match acc with
          | none => some r
          | some bb =>
            if r.diferencia_monto_pct < bb.diferencia_monto_pct then some r else some bb)
          (some b) = some mc ∧
        (mc = b ∨ mc ∈ l) ∧
        mc.diferencia_monto_pct ≤ b.diferencia_monto_pct ∧
        ∀ r ∈ l, mc.diferencia_monto_pct ≤ r.diferencia_monto_pct := by
  induction l with
  | nil =>
    intro b
    exact ⟨b, rfl, Or.inl rfl, le_refl _, by simp⟩
  | cons x xs ih =>
    intro b
    simp only [List.foldl_cons]
    by_cases hlt : x.diferencia_monto_pct < b.diferencia_monto_pct
    · obtain ⟨mc, heq, hmem, hle, hall⟩ := ih x
      refine ⟨mc, ?_, ?_, ?_, ?_⟩
      · simpa [hlt] using heq
      · rcases hmem with rfl | hm
        · exact Or.inr (List.mem_cons_self _ _)
        · exact Or.inr (List.mem_cons_of_mem _ hm)
      · exact le_trans hle (le_of_lt hlt)
      · intro r hr
        rcases List.mem_cons.1 hr with rfl | hr
        · exact hle
        · exact hall r hr
    · obtain ⟨mc, heq, hmem, hle, hall⟩ := ih b
      refine ⟨mc, ?_, ?_, hle, ?_⟩
      · simpa [hlt] using heq
      · rcases hmem with rfl | hm
        · exact Or.inl rfl
        · exact Or.inr (List.mem_cons_of_mem _ hm)
      · intro r hr
        rcases List.mem_cons.1 hr with rfl | hr
        · exact le_trans hle (not_lt.1 hlt)
        · exact hall r hr

/-- `mejorCandidato` of a nonempty list is a member with minimal
`diferencia_monto_pct`. -/
theorem mejorCandidato_spec (l : List RemisionPendiente) (h : l ≠ []) :
    ∃ mc, mejorCandidato l = some mc ∧ mc ∈ l ∧
      ∀ r ∈ l, mc.diferencia_monto_pct ≤ r.diferencia_monto_pct := by
  match l, h with
  | x :: xs, _ =>
    obtain ⟨mc, heq, hmem, hle, hall⟩ := mejorCandidato_aux xs x
    refine ⟨mc, ?_, ?_, ?_⟩
    · simpa [mejorCandidato, List.foldl_cons] using heq
    · rcases hmem with rfl | hm
      · exact List.mem_cons_self _ _
      · exact List.mem_cons_of_mem _ hm
    · intro r hr
      rcases List.mem_cons.1 hr with rfl | hr
      · exact hle
      · exact hall r hr

/-- C3: with cross-validation enabled, a zero-total invoice is SAFE regardless
of pending deliveries; a counterparty with no pending deliveries is SAFE; and
whenever the total is non-zero and at least one pending delivery exists the
call returns BLOCK — never NEEDS_REVIEW — with the closest candidate (a
pending delivery of minimal amount-difference percentage) identified.  The
embedded `validar_antes_de_registro` consumes the store and returns only a
`ResultadoValidacion`: the call performs no writes. -/
theorem c3_validacion_cruzada_clasificacion (s : Settings) (db : DB) (f : Factura)
    (prov : ProveedorERP) (hval : s.validar_remisiones_pendientes = true) :
    (f.total = 0 → (validar_antes_de_registro s db f prov).clasificacion = "SEGURO") ∧
    (obtener_remisiones_pendientes db prov.clave = [] →
      (validar_antes_de_registro s db f prov).clasificacion = "SEGURO") ∧
    (f.total ≠ 0 → obtener_remisiones_pendientes db prov.clave ≠ [] →
      (validar_antes_de_registro s db f prov).clasificacion = "BLOQUEAR" ∧
      ∃ mc, (validar_antes_de_registro s db f prov).remision_similar = some mc ∧
        mc ∈ anotarRemisiones (obtener_remisiones_pendientes db prov.clave)
              f.total f.fecha_emision ∧
        ∀ r ∈ anotarRemisiones (obtener_remisiones_pendientes db prov.clave)
              f.total f.fecha_emision,
          mc.diferencia_monto_pct ≤ r.diferencia_monto_pct) := by
  refine ⟨?_, ?_, ?_⟩
  · intro h0
    simp [validar_antes_de_registro, hval, h0]
  · intro hrem
    by_cases h0 : f.total = 0
    · simp [validar_antes_de_registro, hval, h0]
    · simp [validar_antes_de_registro, hval, h0, hrem]
  · intro h0 hrem
    have hanot :
        anotarRemisiones (obtener_remisiones_pendientes db prov.clave)
          f.total f.fecha_emision ≠ [] := by
      simpa [anotarRemisiones] using hrem
    obtain ⟨mc, heq, hmem, hall⟩ := mejorCandidato_spec _ hanot
    simp only [validar_antes_de_registro, hval, Bool.not_true, Bool.false_eq_true,
      if_false, if_neg h0, if_neg hrem, heq]
    constructor
    · split_ifs <;> rfl
    · refine ⟨mc, ?_, hmem, hall⟩
      split_ifs <;> rfl

/-- Witness for C3: against a store with one pending delivery of the same
supplier, a zero-total invoice is SAFE and a close invoice (total 500, two
days apart) is BLOCKED. -/
theorem c3_witness :
    (validar_antes_de_registro ajustesW dbValW facturaCeroW provW).clasificacion = "SEGURO" ∧
    (validar_antes_de_registro ajustesW dbValW facturaValW provW).clasificacion = "BLOQUEAR" := by
  constructor
  · exact (c3_validacion_cruzada_clasificacion ajustesW dbValW facturaCeroW provW rfl).1
      (by decide)
  · exact ((c3_validacion_cruzada_clasificacion ajustesW dbValW facturaValW provW rfl).2.2
      (by decide) (by decide)).1


/-! ### C1 — registration outcomes are independent of the net-quantity
enrichment -/

/-- Enumeration commutes with mapping over the list elements. -/
theorem enumFrom_map {α β : Type} (n : ℕ) (l : List α) (f : α → β) :
    List.enumFrom n (l.map f) = (List.enumFrom n l).map (Prod.map id f) := by
  induction l generalizing n with
  | nil => rfl
  | cons x xs ih => simp [List.enumFrom, ih]

/-- Updating `cantidad_neta` commutes with the matched filter. -/
theorem filter_map_cn (g : ResultadoMatchProducto → ℚ) (l : List ResultadoMatchProducto) :
    (l.map (conCantidadNeta g)).filter (fun m => m.matcheado) =
      (l.filter (fun m => m.matcheado)).map (conCantidadNeta g) := by
  induction l with
  | nil => rfl
  | cons x xs ih =>
    have hx : (conCantidadNeta g x).matcheado = x.matcheado := by cases x; rfl
    simp only [List.map_cons, List.filter_cons, hx]
    by_cases hm : x.matcheado = true
    · simp only [if_pos hm, List.map_cons, ih]
    · simp only [if_neg hm, ih]

/-- Updating `cantidad_neta` commutes with the unmatched filter. -/
theorem filter_map_cn_not (g : ResultadoMatchProducto → ℚ) (l : List ResultadoMatchProducto) :
    (l.map (conCantidadNeta g)).filter (fun m => !m.matcheado) =
      (l.filter (fun m => !m.matcheado)).map (conCantidadNeta g) := by
  induction l with
  | nil => rfl
  | cons x xs ih =>
    have hx : (conCantidadNeta g x).matcheado = x.matcheado := by cases x; rfl
    simp only [List.map_cons, List.filter_cons, hx]
    by_cases hm : x.matcheado = true
    · simp only [hm, Bool.not_true, if_neg (by simp : ¬((false : Bool) = true)), ih]
    · have hm' : x.matcheado = false := by
        cases hfb : x.matcheado
        · rfl
        · exact absurd hfb hm
      simp only [hm', Bool.not_false, if_true, List.map_cons, ih]

/-- The match percentage ignores `cantidad_neta`. -/
theorem porcentaje_map_cn (g : ResultadoMatchProducto → ℚ) (l : List ResultadoMatchProducto) :
    porcentaje_matcheo (l.map (conCantidadNeta g)) = porcentaje_matcheo l := by
  simp only [porcentaje_matcheo, filter_map_cn, List.length_map]

/-- The PARCIAL comment ignores `cantidad_neta`. -/
theorem comentario_map_cn (f : Factura) (g : ResultadoMatchProducto → ℚ)
    (l : List ResultadoMatchProducto) :
    construir_comentario f (l.map (conCantidadNeta g)) = construir_comentario f l := by
  have hnil : (l.map (conCantidadNeta g) = []) = (l = []) := by
    cases l <;> simp
  simp only [construir_comentario, hnil]
  by_cases h : l = []
  · simp only [if_pos h]
  · simp only [if_neg h]
    congr 1
    congr 1
    rw [List.map_map]
    exact List.map_congr_left fun m _ => by cases m; rfl

/-- The inserted header ignores `cantidad_neta`. -/
theorem cabecera_map_cn (s : Settings) (f : Factura) (prov : ProveedorERP)
    (g : ResultadoMatchProducto → ℚ) (l : List ResultadoMatchProducto) (num : ℕ) :
    cabeceraTransaccion s f prov (l.map (conCantidadNeta g)) num =
      cabeceraTransaccion s f prov l num := by
  have hs : List.map ((fun m => m.concepto_xml.importe) ∘ conCantidadNeta g)
      (l.filter (fun m => m.matcheado)) =
        List.map (fun m => m.concepto_xml.importe) (l.filter (fun m => m.matcheado)) :=
    List.map_congr_left fun m _ => by cases m; rfl
  have hi : List.map ((fun m => m.concepto_xml.impuesto_iva_importe.getD 0) ∘
      conCantidadNeta g) (l.filter (fun m => m.matcheado)) =
        List.map (fun m => m.concepto_xml.impuesto_iva_importe.getD 0)
          (l.filter (fun m => m.matcheado)) :=
    List.map_congr_left fun m _ => by cases m; rfl
  simp only [cabeceraTransaccion, mkCabecera, filter_map_cn, filter_map_cn_not,
    List.length_map, List.map_map, comentario_map_cn, hs, hi]

/-- The inserted detail rows agree columnwise except on `CantidadNeta`. -/
theorem detalles_map_cn (g : ResultadoMatchProducto → ℚ) (l : List ResultadoMatchProducto)
    (num : ℕ) (prov : ProveedorERP) :
    (mkDetalles num prov (l.map (conCantidadNeta g))).map quitarCantidadNetaDet =
      (mkDetalles num prov l).map quitarCantidadNetaDet := by
  simp only [mkDetalles, List.enum, enumFrom_map, List.map_map]
  refine List.map_congr_left fun p _ => ?_
  obtain ⟨i, m⟩ := p
  cases m
  rfl

/-- Core of C1: the registration result and every inserted column other than
`CantidadNeta` are the same however the net quantities of the match results
are assigned. -/
theorem registrar_map_cn (s : Settings) (db : DB) (f : Factura) (prov : ProveedorERP)
    (m_ : List ResultadoMatchProducto) (g : ResultadoMatchProducto → ℚ) (dry : Bool) :
    (registrar s db f prov (m_.map (conCantidadNeta g)) dry).1 =
      (registrar s db f prov m_ dry).1 ∧
    (registrar s db f prov (m_.map (conCantidadNeta g)) dry).2.savRecC =
      (registrar s db f prov m_ dry).2.savRecC ∧
    (registrar s db f prov (m_.map (conCantidadNeta g)) dry).2.savRecD.map
        quitarCantidadNetaDet =
      (registrar s db f prov m_ dry).2.savRecD.map quitarCantidadNetaDet := by
  have hreg : List.map ((fun m =>
      ({ concepto_xml := m.concepto_xml, producto_erp := m.producto_erp,
         registrado := true, confianza_match := m.confianza,
         metodo_match := m.metodo_match } : ConceptoRegistrado)) ∘ conCantidadNeta g)
      (m_.filter (fun m => m.matcheado)) =
        List.map (fun m =>
          ({ concepto_xml := m.concepto_xml, producto_erp := m.producto_erp,
             registrado := true, confianza_match := m.confianza,
             metodo_match := m.metodo_match } : ConceptoRegistrado))
          (m_.filter (fun m => m.matcheado)) :=
    List.map_congr_left fun m _ => by cases m; rfl
  have hnm : List.map ((fun m =>
      ({ concepto_xml := m.concepto_xml,
         motivo_no_registro := some m.mensaje } : ConceptoRegistrado)) ∘ conCantidadNeta g)
      (m_.filter (fun m => !m.matcheado)) =
        List.map (fun m =>
          ({ concepto_xml := m.concepto_xml,
             motivo_no_registro := some m.mensaje } : ConceptoRegistrado))
          (m_.filter (fun m => !m.matcheado)) :=
    List.map_congr_left fun m _ => by cases m; rfl
  refine ⟨?_, ?_, ?_⟩ <;>
    · simp only [registrar, porcentaje_map_cn]
      split_ifs <;>
        simp only [registrarTransaccion, filter_map_cn, filter_map_cn_not,
          List.length_map, List.map_map, List.map_append, cabecera_map_cn,
          detalles_map_cn, hreg, hnm]

/-- Every run of the enrichment is a `cantidad_neta`-only update of the match
list. -/
theorem resolver_shape (idx : SheetsIndex) (cache : CacheProductos) (f : Factura)
    (m_ : List ResultadoMatchProducto) :
    resolver_para_factura idx cache f m_ =
      if idx = ([] : SheetsIndex) then m_
      else m_.map (conCantidadNeta (fun m =>
        if 0 < resolver_concepto idx cache f.fecha_emision m.concepto_xml m then
          resolver_concepto idx cache f.fecha_emision m.concepto_xml m
        else m.cantidad_neta)) := by
  rw [resolver_para_factura]
  split_ifs with h
  · rfl
  · refine List.map_congr_left fun m _ => ?_
    by_cases hc : 0 < resolver_concepto idx cache f.fecha_emision m.concepto_xml m
    · simp only [if_pos hc, conCantidadNeta]
    · simp only [if_neg hc, conCantidadNeta]

/-- C1: the outcome of standard-invoice registration is identical whether or
not the net-quantity enrichment ran: for every assignment `g` of net
quantities the `ResultadoRegistro` is unchanged, the inserted header rows are
unchanged, and the inserted detail rows agree on every column except
`CantidadNeta`; in particular running `resolver_para_factura` (with any index,
including the absent-collaborator empty index, under which every net quantity
stays at its zero default) before `registrar` never changes the returned
result. -/
theorem c1_registro_independiente_de_cantidad_neta (s : Settings) (db : DB)
    (f : Factura) (prov : ProveedorERP) (m_ : List ResultadoMatchProducto)
    (g : ResultadoMatchProducto → ℚ) (dry : Bool) :
    ((registrar s db f prov (m_.map (conCantidadNeta g)) dry).1 =
        (registrar s db f prov m_ dry).1 ∧
      (registrar s db f prov (m_.map (conCantidadNeta g)) dry).2.savRecC =
        (registrar s db f prov m_ dry).2.savRecC ∧
      (registrar s db f prov (m_.map (conCantidadNeta g)) dry).2.savRecD.map
          quitarCantidadNetaDet =
        (registrar s db f prov m_ dry).2.savRecD.map quitarCantidadNetaDet) ∧
    (∀ (idx : SheetsIndex) (cache : CacheProductos),
      (registrar s db f prov (resolver_para_factura idx cache f m_) dry).1 =
        (registrar s db f prov m_ dry).1) := by
  refine ⟨registrar_map_cn s db f prov m_ g dry, ?_⟩
  intro idx cache
  rw [resolver_shape]
  split_ifs with h
  · rfl
  · exact (registrar_map_cn s db f prov m_ _ dry).1

/-! ### C5 — duplicate rejection -/

/-- A successful association-list lookup locates a member pair. -/
theorem lookup_mem {l : List (Char × Char)} {a b : Char}
    (h : l.lookup a = some b) : (a, b) ∈ l := by
  induction l with
  | nil => simp [List.lookup] at h
  | cons p ps ih =>
    obtain ⟨k, v⟩ := p
    by_cases hk : (a == k) = true
    · simp only [List.lookup, hk] at h
      have hak : a = k := eq_of_beq hk
      subst hak
      cases h
      exact List.mem_cons_self _ _
    · simp only [List.lookup, hk] at h
      exact List.mem_cons_of_mem _ (ih h)

/-- Python-style `upper` is idempotent on characters: uppercase results are
not in the lowercase table. -/
theorem pyUpper_idem (c : Char) : pyUpper (pyUpper c) = pyUpper c := by
  rcases h : tablaMayusculas.lookup c with _ | u
  · simp [pyUpper, h]
  · have htab : ∀ p ∈ tablaMayusculas, tablaMayusculas.lookup p.2 = none := by decide
    have hu : tablaMayusculas.lookup u = none := htab (c, u) (lookup_mem h)
    simp [pyUpper, h, hu]

/-- Python-style `upper` is idempotent on strings. -/
theorem pyUpperStr_idem (s : String) : pyUpperStr (pyUpperStr s) = pyUpperStr s := by
  simp only [pyUpperStr, List.map_map]
  exact congrArg String.mk (List.map_congr_left fun c _ => pyUpper_idem c)

/-- After the insert transaction of a registration, the invoice UUID is found
by the duplicate check (the header stores the uppercased UUID and `upper` is
idempotent). -/
theorem uuid_existe_tras_transaccion (s : Settings) (db : DB) (f : Factura)
    (prov : ProveedorERP) (m_ : List ResultadoMatchProducto) (num : ℕ) :
    verificar_uuid_existe (registrarTransaccion s db f prov m_ num)
      (pyUpperStr f.uuid) = true := by
  simp [verificar_uuid_existe, registrarTransaccion, List.filter_append,
    cabeceraTransaccion, mkCabecera, pyUpperStr_idem, SERIE_FACTURA]

/-- C5: duplicate rejection without writes.  Once the match-percentage gate
passes: a UUID already stored for Serie F fails the registration with error
`UUID_DUPLICADO` and leaves the store untouched; with a fresh UUID but an
existing identical RFC + folio + total + date header, it fails with
`FACTURA_DUPLICADA` and leaves the store untouched; and with neither duplicate
present the registration succeeds while an immediate second registration of
the same invoice fails with `UUID_DUPLICADO`, leaving the once-updated store
unchanged. -/
theorem c5_rechazo_duplicados (s : Settings) (db : DB) (f : Factura)
    (prov : ProveedorERP) (m_ : List ResultadoMatchProducto)
    (hp : ¬ porcentaje_matcheo m_ < qofNat s.min_conceptos_match_porcentaje) :
    (verificar_uuid_existe db (pyUpperStr f.uuid) = true →
      (registrar s db f prov m_ false).1.exito = false ∧
      (registrar s db f prov m_ false).1.error = some "UUID_DUPLICADO" ∧
      (registrar s db f prov m_ false).2 = db) ∧
    (verificar_uuid_existe db (pyUpperStr f.uuid) = false →
      verificar_factura_duplicada db f = true →
      (registrar s db f prov m_ false).1.exito = false ∧
      (registrar s db f prov m_ false).1.error = some "FACTURA_DUPLICADA" ∧
      (registrar s db f prov m_ false).2 = db) ∧
    (verificar_uuid_existe db (pyUpperStr f.uuid) = false →
      verificar_factura_duplicada db f = false →
      (registrar s db f prov m_ false).1.exito = true ∧
      (registrar s ((registrar s db f prov m_ false).2) f prov m_ false).1.exito =
        false ∧
      (registrar s ((registrar s db f prov m_ false).2) f prov m_ false).1.error =
        some "UUID_DUPLICADO" ∧
      (registrar s ((registrar s db f prov m_ false).2) f prov m_ false).2 =
        (registrar s db f prov m_ false).2) := by
  refine ⟨?_, ?_, ?_⟩
  · intro hu
    refine ⟨?_, ?_, ?_⟩ <;> simp only [registrar, if_neg hp, if_pos hu]
  · intro hu hf
    have hu' : ¬ (verificar_uuid_existe db (pyUpperStr f.uuid) = true) := by simp [hu]
    refine ⟨?_, ?_, ?_⟩ <;> simp only [registrar, if_neg hp, if_neg hu', if_pos hf]
  · intro hu hf
    have hu' : ¬ (verificar_uuid_existe db (pyUpperStr f.uuid) = true) := by simp [hu]
    have hf' : ¬ (verificar_factura_duplicada db f = true) := by simp [hf]
    have hd' : ¬ ((false : Bool) = true) := Bool.false_ne_true
    have hdb : (registrar s db f prov m_ false).2 =
        registrarTransaccion s db f prov m_ (obtener_siguiente_numrec_con_lock s db) := by
      simp only [registrar, if_neg hp, if_neg hu', if_neg hf', if_neg hd']
    have h2 := uuid_existe_tras_transaccion s db f prov m_
      (obtener_siguiente_numrec_con_lock s db)
    refine ⟨?_, ?_, ?_, ?_⟩
    · simp only [registrar, if_neg hp, if_neg hu', if_neg hf', if_neg hd']
    · rw [hdb]
      simp only [registrar, if_neg hp, if_pos h2]
    · rw [hdb]
      simp only [registrar, if_neg hp, if_pos h2]
    · rw [hdb]
      simp only [registrar, if_neg hp, if_pos h2]

/-- Witness for C5: on an empty store the witness invoice registers
successfully and an immediate re-registration fails as a UUID duplicate. -/
theorem c5_witness :
    (¬ porcentaje_matcheo matchesRegW <
        qofNat ajustesW.min_conceptos_match_porcentaje) ∧
    (verificar_uuid_existe ({} : DB) (pyUpperStr facturaRegW.uuid) = false →
      verificar_factura_duplicada ({} : DB) facturaRegW = false →
      (registrar ajustesW {} facturaRegW provW matchesRegW false).1.exito = true ∧
      (registrar ajustesW ((registrar ajustesW {} facturaRegW provW matchesRegW
          false).2) facturaRegW provW matchesRegW false).1.exito = false ∧
      (registrar ajustesW ((registrar ajustesW {} facturaRegW provW matchesRegW
          false).2) facturaRegW provW matchesRegW false).1.error =
        some "UUID_DUPLICADO" ∧
      (registrar ajustesW ((registrar ajustesW {} facturaRegW provW matchesRegW
          false).2) facturaRegW provW matchesRegW false).2 =
        (registrar ajustesW {} facturaRegW provW matchesRegW false).2) :=
  ⟨by decide, (c5_rechazo_duplicados ajustesW {} facturaRegW provW matchesRegW
    (by decide)).2.2⟩

/-! ### C6 — partial registration -/

/-- C6: once the gate and duplicate checks pass (live run), registration
succeeds; `registro_parcial` says whether any item went unmatched; the store
gains exactly the one header and one detail row per matched item; unmatched
items appear only in the returned list and the header comment; a partial
registration takes its totals from the matched items, a full one from the
invoice's declared totals. -/
theorem c6_registro_parcial (s : Settings) (db : DB) (f : Factura)
    (prov : ProveedorERP) (m_ : List ResultadoMatchProducto)
    (hp : ¬ porcentaje_matcheo m_ < qofNat s.min_conceptos_match_porcentaje)
    (hu : verificar_uuid_existe db (pyUpperStr f.uuid) = false)
    (hf : verificar_factura_duplicada db f = false) :
    (registrar s db f prov m_ false).1.exito = true ∧
    (registrar s db f prov m_ false).1.registro_parcial =
      decide (0 < (m_.filter (fun m => !m.matcheado)).length) ∧
    (registrar s db f prov m_ false).2.savRecC =
      db.savRecC ++ [cabeceraTransaccion s f prov m_
        (obtener_siguiente_numrec_con_lock s db)] ∧
    (registrar s db f prov m_ false).2.savRecD =
      db.savRecD ++ mkDetalles (obtener_siguiente_numrec_con_lock s db) prov
        (m_.filter (fun m => m.matcheado)) ∧
    (mkDetalles (obtener_siguiente_numrec_con_lock s db) prov
        (m_.filter (fun m => m.matcheado))).length =
      (m_.filter (fun m => m.matcheado)).length ∧
    (registrar s db f prov m_ false).1.conceptos_no_matcheados =
      (m_.filter (fun m => !m.matcheado)).map (fun m =>
        { concepto_xml := m.concepto_xml, motivo_no_registro := some m.mensaje }) ∧
    (cabeceraTransaccion s f prov m_ (obtener_siguiente_numrec_con_lock s db)).comentario =
      construir_comentario f (m_.filter (fun m => !m.matcheado)) ∧
    (0 < (m_.filter (fun m => !m.matcheado)).length →
      (cabeceraTransaccion s f prov m_
          (obtener_siguiente_numrec_con_lock s db)).subTotal1 =
        qsum ((m_.filter (fun m => m.matcheado)).map (fun m => m.concepto_xml.importe)) ∧
      (cabeceraTransaccion s f prov m_
          (obtener_siguiente_numrec_con_lock s db)).iva =
        qsum ((m_.filter (fun m => m.matcheado)).map
          (fun m => m.concepto_xml.impuesto_iva_importe.getD 0)) ∧
      (cabeceraTransaccion s f prov m_
          (obtener_siguiente_numrec_con_lock s db)).total =
        qadd (qsum ((m_.filter (fun m => m.matcheado)).map
            (fun m => m.concepto_xml.importe)))
          (qsum ((m_.filter (fun m => m.matcheado)).map
            (fun m => m.concepto_xml.impuesto_iva_importe.getD 0)))) ∧
    ((m_.filter (fun m => !m.matcheado)).length = 0 →
      (cabeceraTransaccion s f prov m_
          (obtener_siguiente_numrec_con_lock s db)).subTotal1 = f.subtotal ∧
      (cabeceraTransaccion s f prov m_
          (obtener_siguiente_numrec_con_lock s db)).iva = f.iva_trasladado ∧
      (cabeceraTransaccion s f prov m_
          (obtener_siguiente_numrec_con_lock s db)).total = f.total) := by
  have hu' : ¬ (verificar_uuid_existe db (pyUpperStr f.uuid) = true) := by simp [hu]
  have hf' : ¬ (verificar_factura_duplicada db f = true) := by simp [hf]
  have hd' : ¬ ((false : Bool) = true) := Bool.false_ne_true
  refine ⟨?_, ?_, ?_, ?_, ?_, ?_, ?_, ?_, ?_⟩
  · simp only [registrar, if_neg hp, if_neg hu', if_neg hf', if_neg hd']
  · simp only [registrar, if_neg hp, if_neg hu', if_neg hf', if_neg hd']
  · simp only [registrar, registrarTransaccion, if_neg hp, if_neg hu', if_neg hf',
      if_neg hd']
  · simp only [registrar, registrarTransaccion, if_neg hp, if_neg hu', if_neg hf',
      if_neg hd']
  · simp only [mkDetalles, List.length_map, List.enum_length]
  · simp only [registrar, if_neg hp, if_neg hu', if_neg hf', if_neg hd']
  · simp only [cabeceraTransaccion, mkCabecera]
  · intro h0
    have hb : decide (0 < (m_.filter (fun m => !m.matcheado)).length) = true :=
      decide_eq_true h0
    refine ⟨?_, ?_, ?_⟩ <;> simp [cabeceraTransaccion, mkCabecera, hb]
  · intro h0
    have hb : decide (0 < (m_.filter (fun m => !m.matcheado)).length) = false := by
      rw [h0]
      decide
    refine ⟨?_, ?_, ?_⟩ <;> simp [cabeceraTransaccion, mkCabecera, hb]

/-- Witness for C6: the three-line invoice with one unmatched item registers
successfully as a partial registration. -/
theorem c6_witness :
    (¬ porcentaje_matcheo matchesParcW <
        qofNat ajustesW.min_conceptos_match_porcentaje) ∧
    (registrar ajustesW {} facturaParcW provW matchesParcW false).1.exito = true ∧
    (registrar ajustesW {} facturaParcW provW matchesParcW false).1.registro_parcial =
      true :=
  ⟨by decide,
    (c6_registro_parcial ajustesW {} facturaParcW provW matchesParcW
      (by decide) (by decide) (by decide)).1,
    ((c6_registro_parcial ajustesW {} facturaParcW provW matchesParcW
      (by decide) (by decide) (by decide)).2.1).trans (by decide)⟩

/-! ### C4 — ambiguity rejection and the discarded-candidate count -/

/-- Inserting into the score-descending sort adds one element. -/
theorem insertCandDesc_length (x : ProductoERP × ℚ)
    (l : List (ProductoERP × ℚ)) :
    (insertCandDesc x l).length = l.length + 1 := by
  induction l with
  | nil => rfl
  | cons y ys ih =>
    simp only [insertCandDesc]
    split_ifs <;> simp [ih]

/-- The score-descending sort preserves length. -/
theorem sortCandDesc_length (l : List (ProductoERP × ℚ)) :
    (sortCandDesc l).length = l.length := by
  induction l with
  | nil => rfl
  | cons x xs ih => simp [sortCandDesc, insertCandDesc_length, ih]

/-- C4 (amended): in an order-insensitive stage, a top-two tie within the
5-point margin makes the stage primitive reject, reporting the number of
above-threshold candidates as its discard count — but that count is dropped
by the stage wrappers, so the final unmatched `ResultadoMatchProducto` always
carries tier `NO_MATCH` with `candidatos_descartados = 0`, not the stage's
above-threshold count. -/
theorem c4_ambiguedad_rechazo (cache : CacheProductos) (nombre : String)
    (productos : List ProductoERP) (umbral : ℕ) (c1 c2 : ProductoERP × ℚ)
    (rest : List (ProductoERP × ℚ))
    (hcands : sortCandDesc (candidatosLista token_sort_sim cache nombre productos
      umbral) = c1 :: c2 :: rest)
    (htie : qsub c1.2 c2.2 < margen_ambiguedad) :
    fuzzy_match_lista cache nombre productos umbral =
      (none,
        (candidatosLista token_sort_sim cache nombre productos umbral).length) ∧
    (∀ (s : Settings) (historial : HistorialCompras) (concepto : Concepto)
        (clave : String),
      (matchear_concepto s cache historial concepto clave).producto_erp = none →
      (matchear_concepto s cache historial concepto clave).nivel_confianza =
        "NO_MATCH" ∧
      (matchear_concepto s cache historial concepto clave).candidatos_descartados
        = 0) := by
  constructor
  · have hlen : (c1 :: c2 :: rest).length =
        (candidatosLista token_sort_sim cache nombre productos umbral).length := by
      rw [← hcands, sortCandDesc_length]
    simp only [fuzzy_match_lista, hcands, if_pos htie, hlen]
  · intro s historial concepto clave h
    simp only [matchear_concepto] at h ⊢
    split_ifs at h ⊢ <;>
      first
        | exact ⟨rfl, rfl⟩
        | simp_all [ResultadoMatchProducto.matcheado, mkNoMatch]

/-- Witness for C4: the two tied score-100 candidates make the history stage
primitive reject with discard count 2, while the final result reports 0. -/
theorem c4_witness :
    (sortCandDesc (candidatosLista token_sort_sim cacheAmb "AB C"
        [prodAmb1, prodAmb2] 90) =
      [(prodAmb1, 100), (prodAmb2, 100)] ∧
      qsub (100 : ℚ) 100 < margen_ambiguedad ∧
      (matchear_concepto ajustesW cacheAmb histAmb conceptoAmb
        "PROV").producto_erp = none) ∧
    fuzzy_match_lista cacheAmb "AB C" [prodAmb1, prodAmb2] 90 =
      (none, (candidatosLista token_sort_sim cacheAmb "AB C"
        [prodAmb1, prodAmb2] 90).length) ∧
    (matchear_concepto ajustesW cacheAmb histAmb conceptoAmb
      "PROV").nivel_confianza = "NO_MATCH" ∧
    (matchear_concepto ajustesW cacheAmb histAmb conceptoAmb
      "PROV").candidatos_descartados = 0 :=
  ⟨⟨by decide, by decide, by decide⟩,
    (c4_ambiguedad_rechazo cacheAmb "AB C" [prodAmb1, prodAmb2] 90
      (prodAmb1, 100) (prodAmb2, 100) [] (by decide) (by decide)).1,
    (c4_ambiguedad_rechazo cacheAmb "AB C" [prodAmb1, prodAmb2] 90
      (prodAmb1, 100) (prodAmb2, 100) [] (by decide) (by decide)).2
      ajustesW histAmb conceptoAmb "PROV" (by decide)⟩

/-! ### C8 — idempotence of the text normalizer on ASCII input -/

/-- A boolean that is not true is false. -/
theorem bool_not_true {b : Bool} (h : ¬ b = true) : b = false := by
  cases b
  · rfl
  · exact absurd rfl h

/-- `upper` keeps ASCII characters in ASCII. -/
theorem pyUpper_ascii (c : Char) (hc : c.toNat < 128) : (pyUpper c).toNat < 128 := by
  rcases h : tablaMayusculas.lookup c with _ | u
  · simpa [pyUpper, h] using hc
  · have htab : ∀ p ∈ tablaMayusculas, p.2.toNat < 128 := by decide
    simpa [pyUpper, h] using htab (c, u) (lookup_mem h)

/-- ASCII characters have no NFKD decomposition. -/
theorem nfkd_ascii (c : Char) (hc : c.toNat < 128) : nfkdChar c = [c] := by
  unfold nfkdChar
  split_ifs with h1 h2 h3 h4 <;>
    first
      | rfl
      | (subst h1; exact absurd hc (by decide))
      | (subst h2; exact absurd hc (by decide))
      | (subst h3; exact absurd hc (by decide))
      | (subst h4; exact absurd hc (by decide))

/-- ASCII characters are not combining marks. -/
theorem combining_ascii (c : Char) (hc : c.toNat < 128) : combiningChar c = false := by
  have h1 : c ≠ '́' := fun h => absurd (h ▸ hc) (by decide)
  have h2 : c ≠ '̃' := fun h => absurd (h ▸ hc) (by decide)
  simp [combiningChar, h1, h2]

/-- `flatMap` of a pointwise-singleton function is the identity. -/
theorem flatMap_of_singleton {α : Type} (f : α → List α) (l : List α)
    (h : ∀ c ∈ l, f c = [c]) : l.flatMap f = l := by
  induction l with
  | nil => rfl
  | cons x xs ih =>
    rw [List.flatMap_cons, h x (List.mem_cons_self _ _),
      ih (fun c hc => h c (List.mem_cons_of_mem _ hc))]
    rfl

/-- `filter` by a pointwise-true predicate is the identity. -/
theorem filter_of_all {α : Type} (p : α → Bool) (l : List α)
    (h : ∀ c ∈ l, p c = true) : l.filter p = l := by
  induction l with
  | nil => rfl
  | cons x xs ih =>
    rw [List.filter_cons, if_pos (h x (List.mem_cons_self _ _)),
      ih (fun c hc => h c (List.mem_cons_of_mem _ hc))]

/-- Members survive `dropWhile`. -/
theorem mem_dropWhile (p : Char → Bool) (l : List Char) :
    ∀ c ∈ l.dropWhile p, c ∈ l := by
  induction l with
  | nil => intro c hc; simp at hc
  | cons x xs ih =>
    intro c hc
    rw [List.dropWhile_cons] at hc
    by_cases hp : p x = true
    · rw [if_pos hp] at hc
      exact List.mem_cons_of_mem _ (ih c hc)
    · rw [if_neg hp] at hc
      exact hc

/-- Members of a stripped list are members of the list. -/
theorem pyStrip_subset (l : List Char) : ∀ c ∈ pyStrip l, c ∈ l := by
  intro c hc
  simp only [pyStrip] at hc
  rw [List.mem_reverse] at hc
  have hc2 := mem_dropWhile _ _ c hc
  rw [List.mem_reverse] at hc2
  exact mem_dropWhile _ _ c hc2

/-- The words `pySplitAux` produces are nonempty and whitespace-free
(provided the accumulator holds no whitespace). -/
theorem pySplitAux_buenas (l : List Char) : ∀ acc,
    (∀ c ∈ acc, isSpacePy c = false) →
    ∀ w ∈ pySplitAux l acc, w ≠ [] ∧ ∀ c ∈ w, isSpacePy c = false := by
  induction l with
  | nil =>
    intro acc hacc w hw
    simp only [pySplitAux] at hw
    by_cases ha : acc = []
    · simp [ha] at hw
    · rw [if_neg ha] at hw
      have hw' : w = acc.reverse := by simpa using hw
      subst hw'
      exact ⟨by simpa using ha, fun c hc => hacc c (List.mem_reverse.mp hc)⟩
  | cons x xs ih =>
    intro acc hacc w hw
    simp only [pySplitAux] at hw
    by_cases hs : isSpacePy x = true
    · rw [if_pos hs] at hw
      by_cases ha : acc = []
      · rw [if_pos ha] at hw
        exact ih [] (by simp) w hw
      · rw [if_neg ha] at hw
        rcases List.mem_cons.mp hw with rfl | hw'
        · exact ⟨by simpa using ha, fun c hc => hacc c (List.mem_reverse.mp hc)⟩
        · exact ih [] (by simp) w hw'
    · rw [if_neg hs] at hw
      refine ih (x :: acc) ?_ w hw
      intro c hc
      rcases List.mem_cons.mp hc with rfl | hc'
      · exact bool_not_true hs
      · exact hacc c hc'

/-- Characters of the words `pySplitAux` produces come from the input or the
accumulator. -/
theorem pySplitAux_chars (l : List Char) : ∀ acc w, w ∈ pySplitAux l acc →
    ∀ c ∈ w, c ∈ l ∨ c ∈ acc := by
  induction l with
  | nil =>
    intro acc w hw c hc
    simp only [pySplitAux] at hw
    by_cases ha : acc = []
    · simp [ha] at hw
    · rw [if_neg ha] at hw
      have hw' : w = acc.reverse := by simpa using hw
      subst hw'
      exact Or.inr (List.mem_reverse.mp hc)
  | cons x xs ih =>
    intro acc w hw c hc
    simp only [pySplitAux] at hw
    by_cases hs : isSpacePy x = true
    · rw [if_pos hs] at hw
      by_cases ha : acc = []
      · rw [if_pos ha] at hw
        rcases ih [] w hw c hc with h | h
        · exact Or.inl (List.mem_cons_of_mem _ h)
        · exact absurd h (List.not_mem_nil c)
      · rw [if_neg ha] at hw
        rcases List.mem_cons.mp hw with rfl | hw'
        · exact Or.inr (List.mem_reverse.mp hc)
        · rcases ih [] w hw' c hc with h | h
          · exact Or.inl (List.mem_cons_of_mem _ h)
          · exact absurd h (List.not_mem_nil c)
    · rw [if_neg hs] at hw
      rcases ih (x :: acc) w hw c hc with h | h
      · exact Or.inl (List.mem_cons_of_mem _ h)
      · rcases List.mem_cons.mp h with rfl | h'
        · exact Or.inl (List.mem_cons_self _ _)
        · exact Or.inr h'

/-- `joinSp` of a cons, in append form. -/
theorem joinSp_cons (w : List Char) (ws : List (List Char)) :
    joinSp (w :: ws) = w ++ (if ws = [] then [] else ' ' :: joinSp ws) := by
  cases ws with
  | nil => simp [joinSp]
  | cons b bs => simp [joinSp]

/-- Characters of `joinSp` are separator spaces or word characters. -/
theorem mem_joinSp (ws : List (List Char)) :
    ∀ c ∈ joinSp ws, c = ' ' ∨ ∃ w ∈ ws, c ∈ w := by
  induction ws with
  | nil => intro c hc; simp [joinSp] at hc
  | cons w ws ih =>
    intro c hc
    rw [joinSp_cons] at hc
    rcases List.mem_append.mp hc with h | h
    · exact Or.inr ⟨w, List.mem_cons_self _ _, h⟩
    · by_cases hws : ws = []
      · rw [if_pos hws] at h
        simp at h
      · rw [if_neg hws] at h
        rcases List.mem_cons.mp h with rfl | h'
        · exact Or.inl rfl
        · rcases ih c h' with h'' | ⟨w', hw', hcw'⟩
          · exact Or.inl h''
          · exact Or.inr ⟨w', List.mem_cons_of_mem _ hw', hcw'⟩

/-- `pySplitAux` eats a whitespace-free word into the accumulator. -/
theorem pySplitAux_word (w r : List Char) :
    (∀ c ∈ w, isSpacePy c = false) → ∀ acc,
    pySplitAux (w ++ r) acc = pySplitAux r (w.reverse ++ acc) := by
  induction w with
  | nil => intro _ acc; simp
  | cons x xs ih =>
    intro hw acc
    simp only [List.cons_append, pySplitAux]
    have hx : isSpacePy x = false := hw x (List.mem_cons_self _ _)
    rw [if_neg (by simp [hx])]
    show pySplitAux (xs ++ r) (x :: acc) = pySplitAux r ((x :: xs).reverse ++ acc)
    rw [ih (fun c hc => hw c (List.mem_cons_of_mem _ hc)) (x :: acc)]
    simp [List.reverse_cons, List.append_assoc]

/-- Splitting the space-join of nonempty whitespace-free words recovers the
words. -/
theorem pySplit_joinSp (ws : List (List Char))
    (h : ∀ w ∈ ws, w ≠ [] ∧ ∀ c ∈ w, isSpacePy c = false) :
    pySplit (joinSp ws) = ws := by
  induction ws with
  | nil => rfl
  | cons w ws ih =>
    obtain ⟨hw0, hwc⟩ := h w (List.mem_cons_self _ _)
    cases ws with
    | nil =>
      show pySplitAux (joinSp [w]) [] = [w]
      have hjw : joinSp [w] = w ++ [] := by simp [joinSp]
      rw [hjw, pySplitAux_word w [] hwc []]
      simp only [pySplitAux, List.append_nil]
      rw [if_neg (by simpa using hw0)]
      simp
    | cons w2 ws2 =>
      show pySplitAux (joinSp (w :: w2 :: ws2)) [] = w :: w2 :: ws2
      have hj : joinSp (w :: w2 :: ws2) = w ++ ' ' :: joinSp (w2 :: ws2) := rfl
      rw [hj, pySplitAux_word w _ hwc [], List.append_nil]
      simp only [pySplitAux]
      rw [if_pos (by decide : isSpacePy ' ' = true)]
      rw [if_neg (by simpa using hw0)]
      rw [List.reverse_reverse]
      congr 1
      exact ih (fun w' hw' => h w' (List.mem_cons_of_mem _ hw'))

/-- `take 1` of a cons. -/
theorem take_one_cons {α : Type} (x : α) (xs : List α) : (x :: xs).take 1 = [x] := rfl

/-- `dropWhile` is the identity when the first character already fails the
predicate. -/
theorem dropWhile_eq_self_of_head (p : Char → Bool) (l : List Char)
    (h : ∀ c ∈ l.take 1, p c = false) : l.dropWhile p = l := by
  cases l with
  | nil => rfl
  | cons x xs =>
    have hx : p x = false := h x (by rw [take_one_cons]; exact List.mem_singleton.mpr rfl)
    rw [List.dropWhile_cons, if_neg (by simp [hx])]

/-- The space-join of good words does not start with whitespace. -/
theorem joinSp_take1 (ws : List (List Char))
    (h : ∀ w ∈ ws, w ≠ [] ∧ ∀ c ∈ w, isSpacePy c = false) :
    ∀ c ∈ (joinSp ws).take 1, isSpacePy c = false := by
  cases ws with
  | nil => intro c hc; simp [joinSp] at hc
  | cons w ws =>
    obtain ⟨hw0, hwc⟩ := h w (List.mem_cons_self _ _)
    obtain ⟨x, w', rfl⟩ := List.exists_cons_of_ne_nil hw0
    intro c hc
    rw [joinSp_cons, List.cons_append, take_one_cons, List.mem_singleton] at hc
    subst hc
    exact hwc c (List.mem_cons_self _ _)

/-- The space-join of good words does not end with whitespace. -/
theorem joinSp_reverse_take1 (ws : List (List Char))
    (h : ∀ w ∈ ws, w ≠ [] ∧ ∀ c ∈ w, isSpacePy c = false) :
    ∀ c ∈ (joinSp ws).reverse.take 1, isSpacePy c = false := by
  induction ws with
  | nil => intro c hc; simp [joinSp] at hc
  | cons w ws ih =>
    obtain ⟨hw0, hwc⟩ := h w (List.mem_cons_self _ _)
    cases ws with
    | nil =>
      intro c hc
      have hc' : c ∈ (joinSp [w]).reverse := List.take_subset _ _ hc
      have hc'' : c ∈ joinSp [w] := List.mem_reverse.mp hc'
      have hjw : joinSp [w] = w := rfl
      rw [hjw] at hc''
      exact hwc c hc''
    | cons w2 ws2 =>
      intro c hc
      have hj : joinSp (w :: w2 :: ws2) = w ++ ' ' :: joinSp (w2 :: ws2) := rfl
      rw [hj, List.reverse_append, List.reverse_cons] at hc
      obtain ⟨hw20, hw2c⟩ := h w2 (List.mem_cons_of_mem _ (List.mem_cons_self _ _))
      obtain ⟨x2, w2', hw2⟩ := List.exists_cons_of_ne_nil hw20
      have hne : (joinSp (w2 :: ws2)).reverse ≠ [] := by
        rw [joinSp_cons, hw2]
        simp
      obtain ⟨d, t, hd⟩ := List.exists_cons_of_ne_nil hne
      rw [hd, List.cons_append, List.cons_append, take_one_cons,
        List.mem_singleton] at hc
      subst hc
      refine ih (fun w' hw' => h w' (List.mem_cons_of_mem _ hw')) c ?_
      rw [hd, take_one_cons]
      exact List.mem_singleton.mpr rfl

/-- Stripping the space-join of good words is the identity. -/
theorem pyStrip_joinSp (ws : List (List Char))
    (h : ∀ w ∈ ws, w ≠ [] ∧ ∀ c ∈ w, isSpacePy c = false) :
    pyStrip (joinSp ws) = joinSp ws := by
  simp only [pyStrip]
  rw [dropWhile_eq_self_of_head _ _ (joinSp_take1 ws h)]
  rw [dropWhile_eq_self_of_head _ _ (joinSp_reverse_take1 ws h), List.reverse_reverse]

/-- The normalizer fixes any space-join of split words whose characters are
`upper`-fixed ASCII. -/
theorem normalizar_fix_palabras (t : List Char)
    (hP : ∀ c ∈ t, pyUpper c = c ∧ c.toNat < 128) :
    normalizarLista (joinSp (pySplit t)) = joinSp (pySplit t) := by
  have hws : ∀ w ∈ pySplit t, w ≠ [] ∧ ∀ c ∈ w, isSpacePy c = false :=
    pySplitAux_buenas t [] (by simp)
  by_cases hy : joinSp (pySplit t) = []
  · rw [hy]
    simp [normalizarLista]
  · have hyc : ∀ c ∈ joinSp (pySplit t),
        pyUpper c = c ∧ c ≠ '\t' ∧ c.toNat < 128 := by
      intro c hc
      rcases mem_joinSp _ c hc with rfl | ⟨w, hw, hcw⟩
      · exact ⟨by decide, by decide, by decide⟩
      · have hct : c ∈ t := by
          rcases pySplitAux_chars t [] w hw c hcw with h' | h'
          · exact h'
          · exact absurd h' (List.not_mem_nil c)
        have hsp : isSpacePy c = false := (hws w hw).2 c hcw
        refine ⟨(hP c hct).1, ?_, (hP c hct).2⟩
        intro hct'
        rw [hct'] at hsp
        exact absurd hsp (by decide)
    have h1 : (joinSp (pySplit t)).map pyUpper = joinSp (pySplit t) :=
      (List.map_congr_left (fun c hc => (hyc c hc).1)).trans (List.map_id' _)
    have h2 : pyStrip (joinSp (pySplit t)) = joinSp (pySplit t) :=
      pyStrip_joinSp _ hws
    have h3 : (joinSp (pySplit t)).map (fun c => if c = '\t' then ' ' else c) =
        joinSp (pySplit t) :=
      (List.map_congr_left (fun c hc => by rw [if_neg (hyc c hc).2.1])).trans
        (List.map_id' _)
    have h4 : (joinSp (pySplit t)).flatMap nfkdChar = joinSp (pySplit t) :=
      flatMap_of_singleton _ _ (fun c hc => nfkd_ascii c (hyc c hc).2.2)
    have h5 : (joinSp (pySplit t)).filter (fun c => !combiningChar c) =
        joinSp (pySplit t) :=
      filter_of_all _ _ (fun c hc => by simp [combining_ascii c (hyc c hc).2.2])
    simp only [normalizarLista, if_neg hy]
    rw [h1, h2, h3, h4, h5, pySplit_joinSp (pySplit t) hws]

/-- On ASCII input the normalizer output is the space-join of the split of
the uppercased, stripped, tab-replaced text (NFKD and the combining filter
are the identity). -/
theorem normalizar_ascii_forma (l : List Char) (hA : ∀ c ∈ l, c.toNat < 128)
    (h0 : l ≠ []) :
    normalizarLista l =
      joinSp (pySplit ((pyStrip (l.map pyUpper)).map
        (fun c => if c = '\t' then ' ' else c))) := by
  have hAt : ∀ c ∈ (pyStrip (l.map pyUpper)).map
      (fun c => if c = '\t' then ' ' else c), c.toNat < 128 := by
    intro c hc
    rcases List.mem_map.mp hc with ⟨d, hd, rfl⟩
    rcases List.mem_map.mp (pyStrip_subset _ d hd) with ⟨x, hx, rfl⟩
    by_cases ht : pyUpper x = '\t'
    · rw [if_pos ht]
      decide
    · rw [if_neg ht]
      exact pyUpper_ascii x (hA x hx)
  simp only [normalizarLista, if_neg h0]
  rw [flatMap_of_singleton _ _ (fun c hc => nfkd_ascii c (hAt c hc))]
  rw [filter_of_all _ _ (fun c hc => by simp [combining_ascii c (hAt c hc)])]

/-- C8 (amended): the text normalizer is idempotent on ASCII strings
(`normalizar_texto (normalizar_texto s) = normalizar_texto s` whenever every
character of `s` is ASCII); full Unicode idempotence fails because NFKD can
reintroduce lowercase characters after uppercasing (see the `º`
counterexample). -/
theorem c8_normalizar_idempotente_ascii (s : String)
    (h : ∀ c ∈ s.data, c.toNat < 128) :
    normalizar_texto (normalizar_texto s) = normalizar_texto s := by
  simp only [normalizar_texto]
  congr 1
  by_cases h0 : s.data = []
  · rw [h0]
    simp [normalizarLista]
  · rw [normalizar_ascii_forma s.data h h0]
    refine normalizar_fix_palabras _ ?_
    intro c hc
    rcases List.mem_map.mp hc with ⟨d, hd, rfl⟩
    rcases List.mem_map.mp (pyStrip_subset _ d hd) with ⟨x, hx, rfl⟩
    by_cases ht : pyUpper x = '\t'
    · rw [if_pos ht]
      exact ⟨by decide, by decide⟩
    · rw [if_neg ht]
      exact ⟨pyUpper_idem x, pyUpper_ascii x (h x hx)⟩

/-- Witness for C8: the ASCII string with tabs and extra spaces normalizes to
a fixed point. -/
theorem c8_witness :
    (∀ c ∈ textoW.data, c.toNat < 128) ∧
    normalizar_texto (normalizar_texto textoW) = normalizar_texto textoW :=
  ⟨by decide, c8_normalizar_idempotente_ascii textoW (by decide)⟩

/-! ### C9 — uniqueness of concurrently allocated sequence numbers -/

/-- The allocator is the store maximum plus one, clamped by the floor. -/
theorem obtener_siguiente_eq_max (s : Settings) (db : DB) :
    obtener_siguiente_numrec_con_lock s db =
      max (maxNumF db + 1) s.numrec_rango_minimo := rfl

/-- The insert transaction raises the store maximum to cover the allocated
number. -/
theorem maxNumF_registrarTransaccion (s : Settings) (db : DB) (f : Factura)
    (prov : ProveedorERP) (m_ : List ResultadoMatchProducto) (num : ℕ) :
    maxNumF (registrarTransaccion s db f prov m_ num) =
      max (maxNumF db) num := by
  simp [maxNumF, registrarTransaccion, cabeceraTransaccion, mkCabecera,
    List.filter_append, List.map_append, List.foldl_append, SERIE_FACTURA]

/-- Every step of the interleaving model preserves the invariant. -/
theorem invariante_paso (s : Settings) {n : ℕ} (docs : Fin n → TxDoc)
    {st st' : EstadoSistema n} (hstep : PasoRegistro s docs st st')
    (hinv : InvarianteC9 s docs st) : InvarianteC9 s docs st' := by
  obtain ⟨h0, h1, h2, h3, h4, h5, h6⟩ := hinv
  cases hstep with
  | adquirir i st hlock hpc =>
    have hno : ∀ k, ¬ (st.pc k = 1 ∨ st.pc k = 2) := by
      intro k hk
      have h' := h1 k hk
      rw [hlock] at h'
      exact Option.noConfusion h'
    have halloc : maxNumF st.db < obtener_siguiente_numrec_con_lock s st.db := by
      rw [obtener_siguiente_eq_max]
      exact Nat.lt_of_lt_of_le (Nat.lt_succ_self _) (Nat.le_max_left _ _)
    have hpiso : s.numrec_rango_minimo ≤ obtener_siguiente_numrec_con_lock s st.db := by
      rw [obtener_siguiente_eq_max]
      exact Nat.le_max_right _ _
    have hpos : 0 < obtener_siguiente_numrec_con_lock s st.db := by
      rw [obtener_siguiente_eq_max]
      exact Nat.lt_of_lt_of_le (Nat.succ_pos _) (Nat.le_max_left _ _)
    refine ⟨?_, ?_, ?_, ?_, ?_, ?_, ?_⟩
    · intro k
      by_cases hki : k = i
      · subst hki; simp [Function.update_apply]
      · simpa [Function.update_apply, hki] using h0 k
    · intro k hk
      by_cases hki : k = i
      · subst hki; rfl
      · simp [Function.update_apply, hki] at hk
        exact absurd hk (hno k)
    · intro k hk
      by_cases hki : k = i
      · subst hki
        simp [Function.update_apply]
        exact ⟨hpiso, hpos⟩
      · simp [Function.update_apply, hki] at hk ⊢
        exact h2 k hk
    · intro k hk
      by_cases hki : k = i
      · subst hki
        simp [Function.update_apply] at hk
      · simp [Function.update_apply, hki] at hk ⊢
        exact h3 k hk
    · intro k hk
      by_cases hki : k = i
      · subst hki
        simp [Function.update_apply]
        exact halloc
      · simp [Function.update_apply, hki] at hk
        exact absurd (Or.inl hk) (hno k)
    · intro k j hkj hk hj
      by_cases hki : k = i
      · subst hki
        have hji : ¬ j = k := fun h => hkj h.symm
        simp [Function.update_apply, hji] at hj
        simp [Function.update_apply, hji]
        have hj1 : st.pc j ≠ 1 := fun h => hno j (Or.inl h)
        have hj23 : st.pc j = 2 ∨ st.pc j = 3 := by
          have := h0 j
          omega
        have := h3 j hj23
        omega
      · by_cases hji : j = i
        · subst hji
          simp [Function.update_apply, hki] at hk
          simp [Function.update_apply, hki]
          have hk1 : st.pc k ≠ 1 := fun h => hno k (Or.inl h)
          have hk23 : st.pc k = 2 ∨ st.pc k = 3 := by
            have := h0 k
            omega
          have := h3 k hk23
          omega
        · simp [Function.update_apply, hki, hji] at hk hj ⊢
          exact h5 k j hkj hk hj
    · intro k hk
      by_cases hki : k = i
      · subst hki
        simp [Function.update_apply] at hk
      · simp [Function.update_apply, hki] at hk ⊢
        exact h6 k hk
  | insertar i st hlock hpc =>
    have honly : ∀ k, st.pc k = 1 ∨ st.pc k = 2 → k = i := by
      intro k hk
      have h' := h1 k hk
      rw [hlock] at h'
      exact (Option.some.inj h').symm
    have hmax : maxNumF (registrarTransaccion s st.db (docs i).factura
        (docs i).proveedor (docs i).matches_ (st.num i)) =
        max (maxNumF st.db) (st.num i) :=
      maxNumF_registrarTransaccion s st.db (docs i).factura (docs i).proveedor
        (docs i).matches_ (st.num i)
    refine ⟨?_, ?_, ?_, ?_, ?_, ?_, ?_⟩
    · intro k
      by_cases hki : k = i
      · subst hki; simp [Function.update_apply]
      · simpa [Function.update_apply, hki] using h0 k
    · intro k hk
      by_cases hki : k = i
      · subst hki; rfl
      · simp [Function.update_apply, hki] at hk
        exact absurd (honly k hk) hki
    · intro k hk
      by_cases hki : k = i
      · subst hki
        have h1le : 1 ≤ st.pc k := by omega
        exact h2 k h1le
      · simp [Function.update_apply, hki] at hk
        exact h2 k hk
    · intro k hk
      by_cases hki : k = i
      · subst hki
        show st.num k ≤ maxNumF (registrarTransaccion s st.db (docs k).factura
          (docs k).proveedor (docs k).matches_ (st.num k))
        rw [hmax]
        exact Nat.le_max_right _ _
      · simp [Function.update_apply, hki] at hk
        have h' := h3 k hk
        show st.num k ≤ maxNumF (registrarTransaccion s st.db (docs i).factura
          (docs i).proveedor (docs i).matches_ (st.num i))
        rw [hmax]
        exact Nat.le_trans h' (Nat.le_max_left _ _)
    · intro k hk
      by_cases hki : k = i
      · subst hki
        simp [Function.update_apply] at hk
      · simp [Function.update_apply, hki] at hk
        exact absurd (honly k (Or.inl hk)) hki
    · intro k j hkj hk hj
      have hk' : 1 ≤ st.pc k := by
        by_cases hki : k = i
        · subst hki; omega
        · simpa [Function.update_apply, hki] using hk
      have hj' : 1 ≤ st.pc j := by
        by_cases hji : j = i
        · subst hji; omega
        · simpa [Function.update_apply, hji] using hj
      exact h5 k j hkj hk' hj'
    · intro k hk
      by_cases hki : k = i
      · subst hki
        show cabeceraTransaccion s (docs k).factura (docs k).proveedor
          (docs k).matches_ (st.num k) ∈ (registrarTransaccion s st.db
            (docs k).factura (docs k).proveedor (docs k).matches_
            (st.num k)).savRecC
        simp [registrarTransaccion]
      · simp [Function.update_apply, hki] at hk
        have h' := h6 k hk
        show cabeceraTransaccion s (docs k).factura (docs k).proveedor
          (docs k).matches_ (st.num k) ∈ (registrarTransaccion s st.db
            (docs i).factura (docs i).proveedor (docs i).matches_
            (st.num i)).savRecC
        simp [registrarTransaccion]
        exact Or.inl h'
  | confirmar i st hlock hpc =>
    refine ⟨?_, ?_, ?_, ?_, ?_, ?_, ?_⟩
    · intro k
      by_cases hki : k = i
      · subst hki; simp [Function.update_apply]
      · simpa [Function.update_apply, hki] using h0 k
    · intro k hk
      by_cases hki : k = i
      · subst hki
        simp [Function.update_apply] at hk
      · simp [Function.update_apply, hki] at hk
        have h' := h1 k hk
        rw [hlock] at h'
        exact absurd (Option.some.inj h').symm hki
    · intro k hk
      by_cases hki : k = i
      · subst hki
        have h1le : 1 ≤ st.pc k := by omega
        exact h2 k h1le
      · simp [Function.update_apply, hki] at hk
        exact h2 k hk
    · intro k hk
      by_cases hki : k = i
      · subst hki
        exact h3 k (Or.inl hpc)
      · simp [Function.update_apply, hki] at hk
        exact h3 k hk
    · intro k hk
      by_cases hki : k = i
      · subst hki
        simp [Function.update_apply] at hk
      · simp [Function.update_apply, hki] at hk
        exact h4 k hk
    · intro k j hkj hk hj
      have hk' : 1 ≤ st.pc k := by
        by_cases hki : k = i
        · subst hki; omega
        · simpa [Function.update_apply, hki] using hk
      have hj' : 1 ≤ st.pc j := by
        by_cases hji : j = i
        · subst hji; omega
        · simpa [Function.update_apply, hji] using hj
      exact h5 k j hkj hk' hj'
    · intro k hk
      by_cases hki : k = i
      · subst hki
        exact h6 k (Or.inl hpc)
      · simp [Function.update_apply, hki] at hk
        exact h6 k hk

/-- Every reachable state of the interleaving model satisfies the invariant. -/
theorem alcanzable_invariante (s : Settings) {n : ℕ} (docs : Fin n → TxDoc)
    (db0 : DB) (st : EstadoSistema n) (h : Alcanzable s docs db0 st) :
    InvarianteC9 s docs st := by
  have h' : Relation.ReflTransGen (PasoRegistro s docs) (estadoInicial n db0) st := h
  clear h
  induction h' with
  | refl =>
    refine ⟨?_, ?_, ?_, ?_, ?_, ?_, ?_⟩
    · intro i; simp [estadoInicial]
    · intro i hk; simp [estadoInicial] at hk
    · intro i hk; simp [estadoInicial] at hk
    · intro i hk; simp [estadoInicial] at hk
    · intro i hk; simp [estadoInicial] at hk
    · intro i j hij hi hj; simp [estadoInicial] at hi
    · intro i hk; simp [estadoInicial] at hk
  | tail hsteps hstep ih => exact invariante_paso s docs hstep ih

/-- C9: in every reachable interleaving of `n` concurrent registrations under
the locked-transaction protocol, every transaction that has performed its
allocation read holds a number at or above the configured floor, no two of
them ever hold the same number, and every transaction that has run its
inserts has its header row (under its own number) in the shared store. -/
theorem c9_asignacion_concurrente_unica (s : Settings) (n : ℕ)
    (docs : Fin n → TxDoc) (db0 : DB) (st : EstadoSistema n)
    (h : Alcanzable s docs db0 st) :
    (∀ i, 1 ≤ st.pc i → s.numrec_rango_minimo ≤ st.num i) ∧
    (∀ i j, i ≠ j → 1 ≤ st.pc i → 1 ≤ st.pc j → st.num i ≠ st.num j) ∧
    (∀ i, st.pc i = 2 ∨ st.pc i = 3 →
      cabeceraTransaccion s (docs i).factura (docs i).proveedor
        (docs i).matches_ (st.num i) ∈ st.db.savRecC) := by
  obtain ⟨_, _, h2, _, _, h5, h6⟩ := alcanzable_invariante s docs db0 st h
  exact ⟨fun i hi => (h2 i hi).1, h5, h6⟩

/-- Witness for C9: the serial two-transaction run through `stC9a`–`stC9f` is
reachable, and in its final state the two registrations hold distinct numbers
at or above the floor. -/
theorem c9_witness :
    Alcanzable ajustesW docsC9 dbC9 stC9f ∧
    stC9f.num 0 ≠ stC9f.num 1 ∧
    ajustesW.numrec_rango_minimo ≤ stC9f.num 0 ∧
    ajustesW.numrec_rango_minimo ≤ stC9f.num 1 := by
  have t1 : Relation.ReflTransGen (PasoRegistro ajustesW docsC9)
      (estadoInicial 2 dbC9) stC9a :=
    Relation.ReflTransGen.single
      (PasoRegistro.adquirir 0 (estadoInicial 2 dbC9) rfl rfl)
  have t2 : Relation.ReflTransGen (PasoRegistro ajustesW docsC9)
      (estadoInicial 2 dbC9) stC9b :=
    t1.tail (PasoRegistro.insertar 0 stC9a rfl rfl)
  have t3 : Relation.ReflTransGen (PasoRegistro ajustesW docsC9)
      (estadoInicial 2 dbC9) stC9c :=
    t2.tail (PasoRegistro.confirmar 0 stC9b rfl rfl)
  have t4 : Relation.ReflTransGen (PasoRegistro ajustesW docsC9)
      (estadoInicial 2 dbC9) stC9d :=
    t3.tail (PasoRegistro.adquirir 1 stC9c rfl rfl)
  have t5 : Relation.ReflTransGen (PasoRegistro ajustesW docsC9)
      (estadoInicial 2 dbC9) stC9e :=
    t4.tail (PasoRegistro.insertar 1 stC9d rfl rfl)
  have halc : Alcanzable ajustesW docsC9 dbC9 stC9f :=
    t5.tail (PasoRegistro.confirmar 1 stC9e rfl rfl)
  refine ⟨halc, ?_, ?_, ?_⟩
  · exact (c9_asignacion_concurrente_unica ajustesW 2 docsC9 dbC9 stC9f halc).2.1
      0 1 (by decide) (by decide) (by decide)
  · exact (c9_asignacion_concurrente_unica ajustesW 2 docsC9 dbC9 stC9f halc).1
      0 (by decide)
  · exact (c9_asignacion_concurrente_unica ajustesW 2 docsC9 dbC9 stC9f halc).1
      1 (by decide)

/-- Witness for C1: enriching the single matched line with net quantity 7
leaves the registration result unchanged. -/
theorem c1_witness :
    (registrar ajustesW {} facturaRegW provW
        (matchesRegW.map (conCantidadNeta (fun _ => 7))) false).1 =
      (registrar ajustesW {} facturaRegW provW matchesRegW false).1 :=
  (c1_registro_independiente_de_cantidad_neta ajustesW {} facturaRegW provW
    matchesRegW (fun _ => 7) false).1.1
